import Mathlib

/-! must_go: abort primitives and recovery boundary.

A shallow embedding of `pkg/must_go` (must.go, utils.go, middleware.go).

* A Go `string` is a Lean `String`; `len` and slicing act on its UTF-8 bytes (`utf8`).
* A Go `error` interface value is `Option GoError`, `none` being the nil error.
* A panic payload (`interface{}` value handed to `panic`) is a `Payload`.
* A Go function is a state transformer `Go α` over a `World` (the response writer of the
  request being served and the process log); it either returns a value or panics with a payload.
  What was written before a panic stays written.
* The `http.ResponseWriter` follows `httptest.ResponseRecorder`, the writer used by the
  tests of the package, with two additions: a writer whose connection is broken (`writeErr`),
  and, as on the server of net/http, no body is sent for a status that allows none.
-/

namespace MustGo

/-! ## Strings -/

/-- The bytes of a Go string (its UTF-8 encoding). -/
def utf8 (s : String) : List UInt8 := s.data.flatMap String.utf8EncodeChar

/-- The slice expression `s[i:j]` on the bytes of a string. `none` is the run-time panic
"slice bounds out of range". -/
def slice (s : List UInt8) (i j : Int) : Option (List UInt8) :=
  if 0 ≤ i ∧ i ≤ j ∧ j ≤ (s.length : Int) then
    some ((s.drop i.toNat).take (j - i).toNat)
  else none

/-- The loop of `containsSubstring` (must.go 101-105), started at index `i`:
`for ; i <= len(s)-len(substr); i++ { if s[i:i+len(substr)] == substr { return true } }`
followed by `return false`. Each iteration uses one unit of `fuel`; `none` is a run-time
panic of a slice expression, or fuel running out. -/
def containsSubstringLoop (s substr : List UInt8) : Nat → Int → Option Bool
  | 0, _ => none
  | fuel + 1, i =>
    if i ≤ (s.length : Int) - (substr.length : Int) then
      match slice s i (i + (substr.length : Int)) with
      | none => none
      | some t => if t = substr then some true
                  else containsSubstringLoop s substr fuel (i + 1)
    else some false

/-- Embedding of `containsSubstring` (must.go 100-107). The fuel `len(s) + 2` is more than
the loop can use. -/
def containsSubstring (s substr : List UInt8) : Option Bool :=
  containsSubstringLoop s substr (s.length + 2) 0

/-- The loop of `containsSubstring` once more, now counting the iterations of its body:
`k` is the number of iterations so far, and the result carries the number at the end. -/
def containsSubstringCount (s substr : List UInt8) : Nat → Int → Nat → Option (Bool × Nat)
  | 0, _, _ => none
  | fuel + 1, i, k =>
    if i ≤ (s.length : Int) - (substr.length : Int) then
      match slice s i (i + (substr.length : Int)) with
      | none => none
      | some t => if t = substr then some (true, k + 1)
                  else containsSubstringCount s substr fuel (i + 1) (k + 1)
    else some (false, k)

/-- Embedding of `contains` (must.go 92-97), with the short-circuit evaluation of `&&` and
`||`:
`len(s) >= len(substr) && (s == substr || (len(s) > len(substr) && (s[:len(substr)] == substr
|| s[len(s)-len(substr):] == substr || containsSubstring(s, substr))))`. -/
def contains (s substr : List UInt8) : Option Bool :=
  if s.length ≥ substr.length then
    if s = substr then some true
    else if s.length > substr.length then
      match slice s 0 (substr.length : Int) with
      | none => none
      | some p =>
        if p = substr then some true
        else
          match slice s ((s.length : Int) - (substr.length : Int)) (s.length : Int) with
          | none => none
          | some q => if q = substr then some true else containsSubstring s substr
    else some false
  else some false

/-! ## Faults, errors and panic payloads -/

/-- The struct `HTTPError` (must.go 9-12). -/
structure HTTPError where
  StatusCode : Int
  Message : String
deriving DecidableEq, Repr

/-- Embedding of `HTTPError.Error` (must.go 15-17): `fmt.Sprintf("HTTP %d: %s", ...)`. -/
def HTTPError.Error (e : HTTPError) : String :=
  "HTTP " ++ toString e.StatusCode ++ ": " ++ e.Message

/-- A non-nil value of the Go interface `error`, by dynamic type:
* `errorString t`: a value with text `t` that wraps nothing and is not an `HTTPError`
  (`errors.New`, `fmt.Errorf` without `%w`, any other error type);
* `wrapError t inner`: the result of `fmt.Errorf` with one `%w`, text `t`, wrapping `inner`;
* `httpError h`: an `HTTPError` value (it implements `error`).
Every value of this type has a text: an error value whose `Error` method itself panics
(a nil `*HTTPError` stored in an `error`) is not a value of this type. -/
inductive GoError where
  | errorString (text : String)
  | wrapError (text : String) (inner : GoError)
  | httpError (h : HTTPError)
deriving DecidableEq, Repr

/-- The method `Error()` of an error value. -/
def GoError.Error : GoError → String
  | .errorString t => t
  | .wrapError t _ => t
  | .httpError h => h.Error

/-- The method `Unwrap()` as seen by `errors.Unwrap`. -/
def GoError.Unwrap : GoError → Option GoError
  | .wrapError _ inner => some inner
  | _ => none

/-- A value handed to `panic`, by dynamic type: a `string`, a value implementing `error`
(an `HTTPError` among them), or a value of any other type, kept as its `%v` rendering. -/
inductive Payload where
  | str (s : String)
  | err (e : GoError)
  | other (rendering : String)
deriving DecidableEq, Repr

/-- The payload `HTTPError{StatusCode: statusCode, Message: message}`. -/
def Payload.fault (statusCode : Int) (message : String) : Payload :=
  .err (.httpError ⟨statusCode, message⟩)

/-- The type assertion `err.(HTTPError)`. -/
def Payload.asHTTPError : Payload → Option HTTPError
  | .err (.httpError h) => some h
  | _ => none

/-- The rendering of a payload by the verb `%v`. -/
def Payload.fmtV : Payload → String
  | .str s => s
  | .err e => e.Error
  | .other r => r

/-! ## The world a handler runs in -/

/-- The request a handler receives. The package never reads it. -/
structure Request where
  Method : String
  Path : String
  Body : String
deriving DecidableEq, Repr

/-- State of an `http.ResponseWriter`, after `httptest.ResponseRecorder`:
the live header map returned by `Header()`, whether the header has been written, the status
code (`Code`, 200 from the start), the header as it was when written (`snapHeader`), and the
body written so far. `writeErr = some e` is a writer whose `Write` fails with error text `e`
(a broken connection); a recorder has `none`. -/
structure ResponseWriter where
  header : List (String × String)
  wroteHeader : Bool
  code : Int
  snapHeader : List (String × String)
  body : String
  writeErr : Option String
deriving DecidableEq, Repr

/-- A fresh recorder, `httptest.NewRecorder()`. -/
def NewRecorder : ResponseWriter :=
  { header := [], wroteHeader := false, code := 200, snapHeader := [], body := "",
    writeErr := none }

/-- The response writer of the request being served, and the log of the process
(the messages given to `log.Printf`, oldest first). -/
structure World where
  resp : ResponseWriter
  log : List String
deriving DecidableEq, Repr

/-- How a Go call ends: it returns a value, or it panics with a payload. -/
inductive Outcome (α : Type) where
  | returned (a : α)
  | panicked (p : Payload)
deriving DecidableEq, Repr

/-- A Go function body: from the world before the call to its outcome and the world after. -/
abbrev Go (α : Type) := World → Outcome α × World

/-- The statement `return a`. -/
def Go.ret {α : Type} (a : α) : Go α := fun σ => (.returned a, σ)

/-- Sequencing `m; k`: a panic of `m` skips `k`. -/
def Go.andThen {α β : Type} (m : Go α) (k : α → Go β) : Go β := fun σ =>
  match m σ with
  | (.returned a, σ') => k a σ'
  | (.panicked p, σ') => (.panicked p, σ')

/-- A unit of request handling (`http.Handler`, `http.HandlerFunc`): the writer it is given is
the one of the world. -/
abbrev Handler := Request → Go Unit

/-- The call `h.Set(key, value)` on a header map (keys are given in canonical form). -/
def headerSet (h : List (String × String)) (key value : String) : List (String × String) :=
  h.filter (fun kv => kv.1 ≠ key) ++ [(key, value)]

/-- The call `h.Del(key)` on a header map. -/
def headerDel (h : List (String × String)) (key : String) : List (String × String) :=
  h.filter (fun kv => kv.1 ≠ key)

/-- The call `h.Get(key)` on a header map, `""` when the key is absent. -/
def headerGet (h : List (String × String)) (key : String) : String :=
  (h.lookup key).getD ""

/-- The statement `w.Header().Set(key, value)`. -/
def setHeader (key value : String) : Go Unit := fun σ =>
  (.returned (), { σ with resp := { σ.resp with header := headerSet σ.resp.header key value } })

/-- The statement `w.WriteHeader(code)`: nothing when the header is already written;
a panic of net/http (`checkWriteHeaderCode`) when `code` is below 100 or above 999;
otherwise the code is recorded and the header map is frozen into `snapHeader`. (The server
of net/http sends a code from 100 to 199 other than 101 as an informational response and
goes on to a final status; the recorder records it as the status. The statements below on the
status of a response are for codes from 200 on.) -/
def WriteHeader (code : Int) : Go Unit := fun σ =>
  if σ.resp.wroteHeader then (.returned (), σ)
  else if code < 100 ∨ code > 999 then
    (.panicked (.str ("invalid WriteHeader code " ++ toString code)), σ)
  else
    (.returned (),
      { σ with resp := { σ.resp with code := code, wroteHeader := true,
                                     snapHeader := σ.resp.header } })

/-- The function `bodyAllowedForStatus` of net/http: a response with a status from 100 to 199,
with status 204 or with status 304 carries no body. -/
def bodyAllowedForStatus (status : Int) : Bool :=
  if 100 ≤ status ∧ status ≤ 199 then false
  else if status = 204 then false
  else if status = 304 then false
  else true

/-- The text of `http.ErrBodyNotAllowed`. -/
def ErrBodyNotAllowed : String :=
  "http: request method or response status code does not allow body"

/-- The call `w.Write(b)`: the header is written with code 200 if it was not yet; when the
status written allows no body, `http.ErrBodyNotAllowed` is returned and nothing is appended
(nothing is sent to the client);
on a broken writer nothing is appended and its error is returned; otherwise the bytes are
appended to the body. (The content sniffing of a missing Content-Type is left out: every
`Write` of this package follows a `Set("Content-Type", ...)`.) -/
def Write (b : String) : World → Option String × World := fun σ =>
  let w := σ.resp
  let w := if w.wroteHeader then w
           else { w with code := 200, wroteHeader := true, snapHeader := w.header }
  if bodyAllowedForStatus w.code then
    match w.writeErr with
    | some e => (some e, { σ with resp := w })
    | none => (none, { σ with resp := { w with body := w.body ++ b } })
  else (some ErrBodyNotAllowed, { σ with resp := w })

/-- The statement `log.Printf(...)`, given the formatted message. -/
def logPrintf (msg : String) : Go Unit := fun σ =>
  (.returned (), { σ with log := σ.log ++ [msg] })

/-- The statement `fmt.Fprint(w, b)` of a unit, its results ignored. -/
def Fprint (b : String) : Go Unit := fun σ =>
  (.returned (), (Write b σ).2)

/-! ## encoding/json and http.Error -/

/-- A hexadecimal digit, lower case. -/
def hexDigit (n : Nat) : Char := "0123456789abcdef".data.getD n (Char.ofNat 48)

/-- How `encoding/json` writes one character of a string, HTML escaping on (the default of
an `Encoder`): the quote and the backslash are escaped, `\b \f \n \r \t` have short forms,
other control characters and `<`, `>`, `&` become `\u00XX`, U+2028 and U+2029 are escaped. -/
def jsonEscapeChar (c : Char) : String :=
  let n := c.toNat
  if n = 34 then "\\\""
  else if n = 92 then "\\\\"
  else if n = 8 then "\\b"
  else if n = 12 then "\\f"
  else if n = 10 then "\\n"
  else if n = 13 then "\\r"
  else if n = 9 then "\\t"
  else if n < 32 ∨ n = 60 ∨ n = 62 ∨ n = 38 then
    "\\u00" ++ String.singleton (hexDigit (n / 16)) ++ String.singleton (hexDigit (n % 16))
  else if n = 8232 then "\\u2028"
  else if n = 8233 then "\\u2029"
  else String.singleton c

/-- The JSON string literal `encoding/json` writes for a string. -/
def jsonString (s : String) : String :=
  "\"" ++ String.join (s.data.map jsonEscapeChar) ++ "\""

/-- What `json.NewEncoder(w).Encode(errorResponse)` writes for the map built at
middleware.go 56-61, `\x7b"error": \x7b"message": message, "status": statusCode\x7d\x7d`:
map keys in sorted order, no spaces, and a closing newline. -/
def encodeErrorResponse (message : String) (statusCode : Int) : String :=
  "\x7b\"error\":\x7b\"message\":" ++ jsonString message ++ ",\"status\":" ++
    toString statusCode ++ "\x7d\x7d\n"

/-- The call `http.Error(w, msg, code)`: drops Content-Length, sets Content-Type to
`text/plain; charset=utf-8` and X-Content-Type-Options to `nosniff`, calls
`w.WriteHeader(code)` and prints `msg` and a newline to `w`, ignoring a write error. -/
def httpError (msg : String) (code : Int) : Go Unit := fun σ =>
  let h := headerDel σ.resp.header "Content-Length"
  let h := headerSet h "Content-Type" "text/plain; charset=utf-8"
  let h := headerSet h "X-Content-Type-Options" "nosniff"
  let σ := { σ with resp := { σ.resp with header := h } }
  match WriteHeader code σ with
  | (.panicked p, σ) => (.panicked p, σ)
  | (.returned (), σ) => (.returned (), (Write (msg ++ "\n") σ).2)

/-! ## Abort primitives (must.go, utils.go) -/

/-- The constant `http.StatusBadRequest`. -/
def StatusBadRequest : Int := 400
/-- The constant `http.StatusUnauthorized`. -/
def StatusUnauthorized : Int := 401
/-- The constant `http.StatusForbidden`. -/
def StatusForbidden : Int := 403
/-- The constant `http.StatusNotFound`. -/
def StatusNotFound : Int := 404
/-- The constant `http.StatusRequestTimeout`. -/
def StatusRequestTimeout : Int := 408
/-- The constant `http.StatusConflict`. -/
def StatusConflict : Int := 409
/-- The constant `http.StatusUnprocessableEntity`. -/
def StatusUnprocessableEntity : Int := 422
/-- The constant `http.StatusTooManyRequests`. -/
def StatusTooManyRequests : Int := 429
/-- The constant `http.StatusInternalServerError`. -/
def StatusInternalServerError : Int := 500
/-- The constant `http.StatusServiceUnavailable`. -/
def StatusServiceUnavailable : Int := 503

/-- The payload of the run-time panic of a slice expression out of range (a `runtime.Error`,
which implements `error`). -/
def sliceBoundsPanic : Payload := .err (.errorString "runtime error: slice bounds out of range")

/-- Embedding of `Must` (must.go 20-24). -/
def Must (err : Option GoError) : Go Unit := fun σ =>
  match err with
  | none => (.returned (), σ)
  | some e => (.panicked (.err e), σ)

/-- Embedding of `MustWithMessage` (must.go 27-31): the payload is
`fmt.Errorf("%s: %w", message, err)`. -/
def MustWithMessage (err : Option GoError) (message : String) : Go Unit := fun σ =>
  match err with
  | none => (.returned (), σ)
  | some e => (.panicked (.err (.wrapError (message ++ ": " ++ e.Error) e)), σ)

/-- Embedding of `MustHTTP` (must.go 34-41). -/
def MustHTTP (err : Option GoError) (statusCode : Int) (message : String) : Go Unit := fun σ =>
  match err with
  | none => (.returned (), σ)
  | some _ => (.panicked (.fault statusCode message), σ)

/-- Embedding of `MustHTTPWithDefault` (must.go 44-82): the cases of the `switch` are tried
from the top, each evaluating `contains(errStr, keyword)`; the first true case fixes
`statusCode` and `message`, which start as 500 and "Internal server error". -/
def MustHTTPWithDefault (err : Option GoError) : Go Unit := fun σ =>
  match err with
  | none => (.returned (), σ)
  | some e =>
    let errStr := utf8 e.Error
    match contains errStr (utf8 "not found") with
    | none => (.panicked sliceBoundsPanic, σ)
    | some true => (.panicked (.fault StatusNotFound "Resource not found"), σ)
    | some false =>
    match contains errStr (utf8 "unauthorized") with
    | none => (.panicked sliceBoundsPanic, σ)
    | some true => (.panicked (.fault StatusUnauthorized "Unauthorized"), σ)
    | some false =>
    match contains errStr (utf8 "forbidden") with
    | none => (.panicked sliceBoundsPanic, σ)
    | some true => (.panicked (.fault StatusForbidden "Forbidden"), σ)
    | some false =>
    match contains errStr (utf8 "bad request") with
    | none => (.panicked sliceBoundsPanic, σ)
    | some true => (.panicked (.fault StatusBadRequest "Bad request"), σ)
    | some false =>
    match contains errStr (utf8 "validation") with
    | none => (.panicked sliceBoundsPanic, σ)
    | some true => (.panicked (.fault StatusBadRequest "Validation error"), σ)
    | some false =>
    match contains errStr (utf8 "timeout") with
    | none => (.panicked sliceBoundsPanic, σ)
    | some true => (.panicked (.fault StatusRequestTimeout "Request timeout"), σ)
    | some false =>
    match contains errStr (utf8 "conflict") with
    | none => (.panicked sliceBoundsPanic, σ)
    | some true => (.panicked (.fault StatusConflict "Resource conflict"), σ)
    | some false =>
    (.panicked (.fault StatusInternalServerError "Internal server error"), σ)

/-- Embedding of `MustWithRecovery` (must.go 85-89). -/
def MustWithRecovery (err : Option GoError) : Go Unit := fun σ =>
  match err with
  | none => (.returned (), σ)
  | some e => (.panicked (.err e), σ)

/-- Embedding of `MustNotFound` (utils.go 9-12). -/
def MustNotFound (err : Option GoError) : Go Unit :=
  MustHTTP err StatusNotFound "Resource not found"

/-- Embedding of `MustBadRequest` (utils.go 14-17). -/
def MustBadRequest (err : Option GoError) : Go Unit :=
  MustHTTP err StatusBadRequest "Bad request"

/-- Embedding of `MustUnauthorized` (utils.go 19-22). -/
def MustUnauthorized (err : Option GoError) : Go Unit :=
  MustHTTP err StatusUnauthorized "Unauthorized"

/-- Embedding of `MustForbidden` (utils.go 24-27). -/
def MustForbidden (err : Option GoError) : Go Unit :=
  MustHTTP err StatusForbidden "Forbidden"

/-- Embedding of `MustConflict` (utils.go 29-32). -/
def MustConflict (err : Option GoError) : Go Unit :=
  MustHTTP err StatusConflict "Resource conflict"

/-- Embedding of `MustValidation` (utils.go 34-37). -/
def MustValidation (err : Option GoError) : Go Unit :=
  MustHTTP err StatusBadRequest "Validation error"

/-- Embedding of `MustInternal` (utils.go 39-42). -/
def MustInternal (err : Option GoError) : Go Unit :=
  MustHTTP err StatusInternalServerError "Internal server error"

/-- Embedding of `MustTimeout` (utils.go 44-47). -/
def MustTimeout (err : Option GoError) : Go Unit :=
  MustHTTP err StatusRequestTimeout "Request timeout"

/-- Embedding of `MustServiceUnavailable` (utils.go 49-52). -/
def MustServiceUnavailable (err : Option GoError) : Go Unit :=
  MustHTTP err StatusServiceUnavailable "Service unavailable"

/-- Embedding of `MustTooManyRequests` (utils.go 54-57). -/
def MustTooManyRequests (err : Option GoError) : Go Unit :=
  MustHTTP err StatusTooManyRequests "Too many requests"

/-- Embedding of `MustUnprocessableEntity` (utils.go 59-62). -/
def MustUnprocessableEntity (err : Option GoError) : Go Unit :=
  MustHTTP err StatusUnprocessableEntity "Unprocessable entity"

/-- Embedding of `MustParse` (utils.go 67-70). -/
def MustParse {T : Type} (result : T) (err : Option GoError) : Go T :=
  (Must err).andThen fun _ => Go.ret result

/-- Embedding of `MustParseWithMessage` (utils.go 73-76). -/
def MustParseWithMessage {T : Type} (result : T) (err : Option GoError) (message : String) :
    Go T :=
  (MustWithMessage err message).andThen fun _ => Go.ret result

/-- Embedding of `MustParseHTTP` (utils.go 79-82). -/
def MustParseHTTP {T : Type} (result : T) (err : Option GoError) (statusCode : Int)
    (message : String) : Go T :=
  (MustHTTP err statusCode message).andThen fun _ => Go.ret result

/-- Embedding of `MustParseHTTPDefault` (utils.go 85-88). -/
def MustParseHTTPDefault {T : Type} (result : T) (err : Option GoError) : Go T :=
  (MustHTTPWithDefault err).andThen fun _ => Go.ret result

/-! ## Recovery boundary (middleware.go) -/

/-- The status code and message `handlePanic` settles on (middleware.go 38-51): the defaults
500 and "Internal server error", replaced by the fields of an `HTTPError` payload, else by a
`string` payload as message, else by the text of an `error` payload as message. -/
def panicStatusMessage (err : Payload) : Int × String :=
  match err.asHTTPError with
  | some httpErr => (httpErr.StatusCode, httpErr.Message)
  | none =>
    match err with
    | .str errStr => (StatusInternalServerError, errStr)
    | .err errObj => (StatusInternalServerError, errObj.Error)
    | .other _ => (StatusInternalServerError, "Internal server error")

/-- Embedding of `handlePanic` (middleware.go 34-70). -/
def handlePanic (_r : Request) (err : Payload) : Go Unit := fun σ =>
  let σ := (logPrintf ("Panic recovered: " ++ err.fmtV) σ).2
  let statusCode := (panicStatusMessage err).1
  let message := (panicStatusMessage err).2
  let σ := (setHeader "Content-Type" "application/json" σ).2
  match WriteHeader statusCode σ with
  | (.panicked p, σ) => (.panicked p, σ)
  | (.returned (), σ) =>
    match Write (encodeErrorResponse message statusCode) σ with
    | (none, σ) => (.returned (), σ)
    | (some e, σ) =>
      let σ := (logPrintf ("Failed to encode error response: " ++ e) σ).2
      httpError "Internal server error" StatusInternalServerError σ

/-- The body of `handlePanic` after its first statement (middleware.go 37-69): settle status
and message, set the Content-Type, write the header, encode the body, and fall back to
`http.Error` when encoding fails. -/
def respondToPanic (err : Payload) : Go Unit := fun σ =>
  let statusCode := (panicStatusMessage err).1
  let message := (panicStatusMessage err).2
  let σ := (setHeader "Content-Type" "application/json" σ).2
  match WriteHeader statusCode σ with
  | (.panicked p, σ) => (.panicked p, σ)
  | (.returned (), σ) =>
    match Write (encodeErrorResponse message statusCode) σ with
    | (none, σ) => (.returned (), σ)
    | (some e, σ) =>
      let σ := (logPrintf ("Failed to encode error response: " ++ e) σ).2
      httpError "Internal server error" StatusInternalServerError σ

/-- The statement `defer func() { if err := recover(); err != nil { onPanic(err) } }()`
in front of `body`: a panic of `body` is stopped and `onPanic` runs on its payload, in the
world the panic left behind; a panic of `onPanic` itself goes on to the caller. -/
def deferRecover (onPanic : Payload → Go Unit) (body : Go Unit) : Go Unit := fun σ =>
  match body σ with
  | (.returned (), σ') => (.returned (), σ')
  | (.panicked p, σ') => onPanic p σ'

/-- Embedding of `RecoveryMiddleware` (middleware.go 10-19). -/
def RecoveryMiddleware (next : Handler) : Handler := fun r =>
  deferRecover (fun err => handlePanic r err) (next r)

/-- Embedding of `RecoveryMiddlewareFunc` (middleware.go 22-31). -/
def RecoveryMiddlewareFunc (next : Handler) : Handler := fun r =>
  deferRecover (fun err => handlePanic r err) (next r)

/-- Embedding of `CustomRecoveryMiddleware` (middleware.go 73-84). -/
def CustomRecoveryMiddleware (panicHandler : Request → Payload → Go Unit) (next : Handler) :
    Handler := fun r =>
  deferRecover (fun err => panicHandler r err) (next r)

/-- Embedding of `SimpleRecoveryMiddleware` (middleware.go 87-97). -/
def SimpleRecoveryMiddleware (next : Handler) : Handler := fun r =>
  deferRecover
    (fun err =>
      (logPrintf ("Panic recovered: " ++ err.fmtV)).andThen fun _ =>
        httpError "Internal server error" StatusInternalServerError)
    (next r)

/-! ## The words of the specification -/

/-- The keyword `substr` occurs in the text `s`: the bytes of `substr` are a contiguous run of
the bytes of `s`. -/
def occursIn (substr s : String) : Prop := utf8 substr <:+: utf8 s

instance (substr s : String) : Decidable (occursIn substr s) :=
  inferInstanceAs (Decidable (utf8 substr <:+: utf8 s))

/-- The classification table of the specification, in priority order:
keyword, status, message. -/
def classificationTable : List (String × Int × String) :=
  [("not found", 404, "Resource not found"),
   ("unauthorized", 401, "Unauthorized"),
   ("forbidden", 403, "Forbidden"),
   ("bad request", 400, "Bad request"),
   ("validation", 400, "Validation error"),
   ("timeout", 408, "Request timeout"),
   ("conflict", 409, "Resource conflict")]

/-- First match of a text against a table: the fault of the first entry whose keyword occurs
in the text, and 500 / "Internal server error" when no keyword occurs. -/
def firstMatch (t : String) : List (String × Int × String) → HTTPError
  | [] => ⟨500, "Internal server error"⟩
  | (kw, status, msg) :: rest => if occursIn kw t then ⟨status, msg⟩ else firstMatch t rest

/-- The fault wire shape of the specification on a response: status code `S`, Content-Type
`application/json` (in the header map and in the header as written), and as body the JSON
text of `\x7b"error":\x7b"message":M,"status":S\x7d\x7d`, closed by the newline of the encoder. -/
def isFaultResponse (w : ResponseWriter) (S : Int) (M : String) : Prop :=
  w.wroteHeader = true ∧ w.code = S ∧
  headerGet w.header "Content-Type" = "application/json" ∧
  headerGet w.snapHeader "Content-Type" = "application/json" ∧
  w.body = encodeErrorResponse M S

/-- The message the specification gives to a payload that is not a fault: the text of an
error, a string itself, a fixed fallback for any other value. -/
def nonFaultMessage : Payload → String
  | .err e => e.Error
  | .str s => s
  | .other _ => "Internal server error"

/-- The canonical string representation of a fault in the words of the specification,
`"<status>: <message>"`: the decimal status, a colon, a space and the message. -/
def canonicalForm (h : HTTPError) : String :=
  toString h.StatusCode ++ ": " ++ h.Message

/-! ## The JSON grammar (RFC 8259), as far as the fault wire shape needs it -/

/-- The value of a hexadecimal digit of a JSON `\u` escape. -/
def hexValue (c : Char) : Option Nat :=
  let n := c.toNat
  if 48 ≤ n ∧ n ≤ 57 then some (n - 48)
  else if 97 ≤ n ∧ n ≤ 102 then some (n - 87)
  else if 65 ≤ n ∧ n ≤ 70 then some (n - 55)
  else none

/-- The character a two-character JSON escape stands for (RFC 8259, section 7): the quote,
the backslash, the slash, and `b f n r t`. -/
def unescapeChar (c : Char) : Option Char :=
  let n := c.toNat
  if n = 34 then some (Char.ofNat 34)
  else if n = 92 then some (Char.ofNat 92)
  else if n = 47 then some (Char.ofNat 47)
  else if n = 98 then some (Char.ofNat 8)
  else if n = 102 then some (Char.ofNat 12)
  else if n = 110 then some (Char.ofNat 10)
  else if n = 114 then some (Char.ofNat 13)
  else if n = 116 then some (Char.ofNat 9)
  else none

/-- Reads a JSON string from just after its opening quote: the characters it stands for and
the text after its closing quote. Control characters must be escaped; a `\u` escape of a
surrogate is not read. -/
def readJsonString : List Char → Option (List Char × List Char)
  | [] => none
  | c :: rest =>
    if c.toNat = 34 then some ([], rest)
    else if c.toNat = 92 then
      match rest with
      | [] => none
      | e :: rest1 =>
        if e.toNat = 117 then
          match rest1 with
          | a :: b :: c2 :: d :: rest2 =>
            match hexValue a, hexValue b, hexValue c2, hexValue d with
            | some x, some y, some z, some w =>
              let code := 4096 * x + 256 * y + 16 * z + w
              if 55296 ≤ code ∧ code ≤ 57343 then none
              else
                match readJsonString rest2 with
                | none => none
                | some (cs, after) => some (Char.ofNat code :: cs, after)
            | _, _, _, _ => none
          | _ => none
        else
          match unescapeChar e with
          | none => none
          | some ch =>
            match readJsonString rest1 with
            | none => none
            | some (cs, after) => some (ch :: cs, after)
    else if c.toNat < 32 then none
    else
      match readJsonString rest with
      | none => none
      | some (cs, after) => some (c :: cs, after)

/-- Whether a character is a decimal digit. -/
def isDigit (c : Char) : Bool := decide (48 ≤ c.toNat ∧ c.toNat ≤ 57)

/-- The number a run of decimal digits stands for. -/
def digitsValue (ds : List Char) : Nat :=
  ds.foldl (fun acc c => acc * 10 + (c.toNat - 48)) 0

/-- Reads the digits of a JSON integer (RFC 8259, section 6: a single zero, or a digit from 1
to 9 followed by digits): its value and the text after it. -/
def readJsonNat (s : List Char) : Option (Nat × List Char) :=
  let ds := s.takeWhile isDigit
  if ds = [] then none
  else if 1 < ds.length ∧ ds.head? = some (Char.ofNat 48) then none
  else some (digitsValue ds, s.dropWhile isDigit)

/-- Reads a JSON integer, with its minus sign if it has one. -/
def readJsonInt : List Char → Option (Int × List Char)
  | [] => none
  | c :: rest =>
    if c.toNat = 45 then
      match readJsonNat rest with
      | none => none
      | some (n, after) => some (-(n : Int), after)
    else
      match readJsonNat (c :: rest) with
      | none => none
      | some (n, after) => some ((n : Int), after)

/-- Takes the literal text `lit` off the front of `s`, if `s` starts with it. -/
def dropLiteral : List Char → List Char → Option (List Char)
  | [], s => some s
  | _ :: _, [] => none
  | l :: lit, c :: s => if l = c then dropLiteral lit s else none

/-- Whether a character is JSON white space. -/
def isJsonSpace (c : Char) : Bool :=
  decide (c.toNat = 32 ∨ c.toNat = 9 ∨ c.toNat = 10 ∨ c.toNat = 13)

/-- Reads a response body as the fault wire shape of the specification, the JSON text
`\x7b"error":\x7b"message":<string>,"status":<integer>\x7d\x7d` with nothing after it but white
space: the message and the status it holds, or `none` when the body is not of that shape. -/
def decodeErrorResponse (body : String) : Option (String × Int) :=
  match dropLiteral "\x7b\"error\":\x7b\"message\":\"".data body.data with
  | none => none
  | some r1 =>
    match readJsonString r1 with
    | none => none
    | some (msg, r2) =>
      match dropLiteral ",\"status\":".data r2 with
      | none => none
      | some r3 =>
        match readJsonInt r3 with
        | none => none
        | some (status, r4) =>
          match dropLiteral "\x7d\x7d".data r4 with
          | none => none
          | some r5 => if r5.all isJsonSpace then some (String.mk msg, status) else none

/-! ## Lemmas on `contains` -/

theorem slice_eq_some (s : List UInt8) (i j : Nat) (hij : i ≤ j) (hj : j ≤ s.length) :
    slice s (i : Int) (j : Int) = some ((s.drop i).take (j - i)) := by
  have h : 0 ≤ (i : Int) ∧ (i : Int) ≤ (j : Int) ∧ (j : Int) ≤ (s.length : Int) := by omega
  have e : ((j : Int) - (i : Int)).toNat = j - i := by omega
  simp [slice, h, e]

theorem occurs_iff_window (sub s : List UInt8) :
    sub <:+: s ↔ ∃ k, k + sub.length ≤ s.length ∧ (s.drop k).take sub.length = sub := by
  constructor
  · rintro ⟨pre, post, rfl⟩
    refine ⟨pre.length, by simp, ?_⟩
    simp [List.append_assoc]
  · rintro ⟨k, _, hk⟩
    have h1 : (s.drop k).take sub.length <:+: s :=
      (List.take_prefix _ _).isInfix.trans (List.drop_suffix _ _).isInfix
    rwa [hk] at h1

theorem containsSubstringLoop_spec (s sub : List UInt8) :
    ∀ (fuel i : Nat), i ≤ s.length + 1 → s.length + 1 < fuel + i →
      ∃ b, containsSubstringLoop s sub fuel (i : Int) = some b ∧
        (b = true ↔ ∃ k, i ≤ k ∧ k + sub.length ≤ s.length ∧
          (s.drop k).take sub.length = sub) := by
  intro fuel
  induction fuel with
  | zero => intro i h1 h2; omega
  | succ fuel ih =>
    intro i h1 h2
    unfold containsSubstringLoop
    by_cases hc : (i : Int) ≤ (s.length : Int) - (sub.length : Int)
    · have hle : i + sub.length ≤ s.length := by omega
      have hs : slice s (i : Int) ((i : Int) + (sub.length : Int))
          = some ((s.drop i).take sub.length) := by
        have := slice_eq_some s i (i + sub.length) (by omega) hle
        simpa using this
      rw [if_pos hc, hs]
      by_cases ht : (s.drop i).take sub.length = sub
      · refine ⟨true, by simp only [ht, if_true], ?_⟩
        simp only [true_iff]
        exact ⟨i, le_refl _, hle, ht⟩
      · simp only [ht, if_false]
        obtain ⟨b, hb, hiff⟩ := ih (i + 1) (by omega) (by omega)
        refine ⟨b, ?_, ?_⟩
        · rw [← hb]; congr 1
        · rw [hiff]
          constructor
          · rintro ⟨k, hk1, hk2, hk3⟩; exact ⟨k, by omega, hk2, hk3⟩
          · rintro ⟨k, hk1, hk2, hk3⟩
            refine ⟨k, ?_, hk2, hk3⟩
            rcases Nat.eq_or_lt_of_le hk1 with h | h
            · subst h; exact absurd hk3 ht
            · omega
    · rw [if_neg hc]
      refine ⟨false, rfl, ?_⟩
      simp only [Bool.false_eq_true, false_iff]
      rintro ⟨k, hk1, hk2, _⟩
      omega

theorem containsSubstring_eq (s sub : List UInt8) :
    containsSubstring s sub = some (decide (sub <:+: s)) := by
  obtain ⟨b, hb, hiff⟩ := containsSubstringLoop_spec s sub (s.length + 2) 0 (by omega) (by omega)
  unfold containsSubstring
  rw [show (0 : Int) = ((0 : Nat) : Int) by rfl, hb]
  congr 1
  have hP : (b = true) ↔ sub <:+: s := by
    rw [hiff, occurs_iff_window]
    constructor
    · rintro ⟨k, _, h2, h3⟩; exact ⟨k, h2, h3⟩
    · rintro ⟨k, h2, h3⟩; exact ⟨k, Nat.zero_le _, h2, h3⟩
  cases b with
  | true => exact (decide_eq_true (hP.mp rfl)).symm
  | false => exact (decide_eq_false (fun h => Bool.false_ne_true (hP.mpr h))).symm

/-- The function `contains` never panics and answers whether `sub` occurs in `s`. -/
theorem contains_eq (s sub : List UInt8) :
    contains s sub = some (decide (sub <:+: s)) := by
  unfold contains
  by_cases h1 : s.length ≥ sub.length
  · rw [if_pos h1]
    by_cases h2 : s = sub
    · subst h2
      simp [List.infix_refl]
    · rw [if_neg h2]
      by_cases h3 : s.length > sub.length
      · rw [if_pos h3]
        have e1 : slice s 0 (sub.length : Int) = some (s.take sub.length) := by
          have := slice_eq_some s 0 sub.length (by omega) (by omega)
          simpa using this
        have e2 : slice s ((s.length : Int) - (sub.length : Int)) (s.length : Int)
            = some (s.drop (s.length - sub.length)) := by
          have := slice_eq_some s (s.length - sub.length) s.length (by omega) (by omega)
          rw [show ((s.length - sub.length : Nat) : Int)
            = (s.length : Int) - (sub.length : Int) by omega] at this
          rw [this]
          congr 1
          apply List.take_of_length_le
          simp
        rw [e1]
        by_cases h4 : s.take sub.length = sub
        · simp only [h4, if_true]
          congr 1
          symm
          apply decide_eq_true
          have := (List.take_prefix sub.length s).isInfix
          rwa [h4] at this
        · simp only [h4, if_false]
          rw [e2]
          by_cases h5 : s.drop (s.length - sub.length) = sub
          · simp only [h5, if_true]
            congr 1
            symm
            apply decide_eq_true
            have := (List.drop_suffix (s.length - sub.length) s).isInfix
            rwa [h5] at this
          · simp only [h5, if_false]
            exact containsSubstring_eq s sub
      · rw [if_neg h3]
        congr 1
        symm
        apply decide_eq_false
        intro hin
        exact h2 (hin.eq_of_length (by omega)).symm
  · rw [if_neg h1]
    congr 1
    symm
    apply decide_eq_false
    intro hin
    exact h1 hin.length_le

/-- The inference primitive never panics in a slice expression: on a non-nil error it raises
the fault that first match over the classification table gives for the text of the error. -/
theorem MustHTTPWithDefault_firstMatch (e : GoError) (σ : World) :
    MustHTTPWithDefault (some e) σ =
      (.panicked (.err (.httpError (firstMatch e.Error classificationTable))), σ) := by
  simp only [MustHTTPWithDefault, contains_eq, firstMatch, classificationTable, occursIn,
    Payload.fault, StatusNotFound, StatusUnauthorized, StatusForbidden, StatusBadRequest,
    StatusRequestTimeout, StatusConflict, StatusInternalServerError]
  by_cases h1 : utf8 "not found" <:+: utf8 e.Error
  · simp [h1]
  by_cases h2 : utf8 "unauthorized" <:+: utf8 e.Error
  · simp [h1, h2]
  by_cases h3 : utf8 "forbidden" <:+: utf8 e.Error
  · simp [h1, h2, h3]
  by_cases h4 : utf8 "bad request" <:+: utf8 e.Error
  · simp [h1, h2, h3, h4]
  by_cases h5 : utf8 "validation" <:+: utf8 e.Error
  · simp [h1, h2, h3, h4, h5]
  by_cases h6 : utf8 "timeout" <:+: utf8 e.Error
  · simp [h1, h2, h3, h4, h5, h6]
  by_cases h7 : utf8 "conflict" <:+: utf8 e.Error
  · simp [h1, h2, h3, h4, h5, h6, h7]
  · simp [h1, h2, h3, h4, h5, h6, h7]

theorem headerGet_headerSet (h : List (String × String)) (key value : String) :
    headerGet (headerSet h key value) key = value := by
  have : List.lookup key (headerSet h key value) = some value := by
    unfold headerSet
    induction h with
    | nil => simp [List.lookup]
    | cons kv h ih =>
      by_cases hk : kv.1 = key
      · simpa [List.filter, hk] using ih
      · have hne : (key == kv.1) = false := by
          simp only [beq_eq_false_iff_ne, ne_eq]
          exact fun h => hk h.symm
        simpa [List.filter, hk, List.lookup, hne] using ih
  simp [headerGet, this]

/-- On a writer whose header is not yet written and whose writes succeed, and for a payload
whose status is one `WriteHeader` accepts and that allows a body, `handlePanic` returns; it
has logged the payload, set the Content-Type, written the status and appended the JSON
body. -/
theorem handlePanic_fresh (r : Request) (p : Payload) (σ : World)
    (hfresh : σ.resp.wroteHeader = false) (hok : σ.resp.writeErr = none)
    (hlo : 100 ≤ (panicStatusMessage p).1) (hhi : (panicStatusMessage p).1 ≤ 999)
    (hallowed : bodyAllowedForStatus (panicStatusMessage p).1 = true) :
    handlePanic r p σ =
      (.returned (),
        { resp :=
            { header := headerSet σ.resp.header "Content-Type" "application/json",
              wroteHeader := true,
              code := (panicStatusMessage p).1,
              snapHeader := headerSet σ.resp.header "Content-Type" "application/json",
              body := σ.resp.body ++
                encodeErrorResponse (panicStatusMessage p).2 (panicStatusMessage p).1,
              writeErr := none },
          log := σ.log ++ ["Panic recovered: " ++ p.fmtV] }) := by
  have hcode : ¬ ((panicStatusMessage p).1 < 100 ∨ (panicStatusMessage p).1 > 999) := by omega
  simp [handlePanic, logPrintf, setHeader, WriteHeader, Write, hfresh, hok, hcode, hallowed]

/-- A status from 200 on other than 204 and 304 allows a body. -/
theorem bodyAllowed_from_200 (S : Int) (hlo : 200 ≤ S) (h204 : S ≠ 204) (h304 : S ≠ 304) :
    bodyAllowedForStatus S = true := by
  have h1 : ¬ (100 ≤ S ∧ S ≤ 199) := by omega
  simp [bodyAllowedForStatus, h1, h204, h304]

/-- A payload that is not an `HTTPError` gets status 500 and its message by type. -/
theorem panicStatusMessage_nonFault (p : Payload) (hp : p.asHTTPError = none) :
    panicStatusMessage p = (500, nonFaultMessage p) := by
  unfold panicStatusMessage
  rw [hp]
  cases p <;> rfl

/-- When the header is already written with a status that allows a body and writes succeed,
`handlePanic` returns: its `WriteHeader` is ignored, so the status code and the header as
written stay; the Content-Type of the live header map is set and the JSON body is appended to
the body already written. -/
theorem handlePanic_written (r : Request) (p : Payload) (σ : World)
    (hw : σ.resp.wroteHeader = true) (hok : σ.resp.writeErr = none)
    (hallowed : bodyAllowedForStatus σ.resp.code = true) :
    handlePanic r p σ =
      (.returned (),
        { resp :=
            { header := headerSet σ.resp.header "Content-Type" "application/json",
              wroteHeader := true,
              code := σ.resp.code,
              snapHeader := σ.resp.snapHeader,
              body := σ.resp.body ++
                encodeErrorResponse (panicStatusMessage p).2 (panicStatusMessage p).1,
              writeErr := none },
          log := σ.log ++ ["Panic recovered: " ++ p.fmtV] }) := by
  simp [handlePanic, logPrintf, setHeader, WriteHeader, Write, hw, hok, hallowed]

/-- The wrapper `RecoveryMiddleware` around a unit that panics is `handlePanic` on the
payload, run in the world the unit left. -/
theorem RecoveryMiddleware_of_panic (next : Handler) (r : Request) (σ σ' : World)
    (p : Payload) (hpanic : next r σ = (.panicked p, σ')) :
    RecoveryMiddleware next r σ = handlePanic r p σ' := by
  simp only [RecoveryMiddleware, deferRecover, hpanic]

/-- The counting loop gives the result of the loop itself, and from index `i` on the body
runs at most `len(s) + 1 - len(substr) - i` times (not at all when that is not positive). -/
theorem containsSubstringCount_spec (s sub : List UInt8) :
    ∀ (fuel i k : Nat), i ≤ s.length + 1 → s.length + 1 < fuel + i →
      ∃ b j, containsSubstringCount s sub fuel (i : Int) k = some (b, j) ∧
        containsSubstringLoop s sub fuel (i : Int) = some b ∧
        j ≤ k + (s.length + 1 - sub.length - i) := by
  intro fuel
  induction fuel with
  | zero => intro i k h1 h2; omega
  | succ fuel ih =>
    intro i k h1 h2
    unfold containsSubstringCount containsSubstringLoop
    by_cases hc : (i : Int) ≤ (s.length : Int) - (sub.length : Int)
    · have hle : i + sub.length ≤ s.length := by omega
      have hs : slice s (i : Int) ((i : Int) + (sub.length : Int))
          = some ((s.drop i).take sub.length) := by
        have := slice_eq_some s i (i + sub.length) (by omega) hle
        simpa using this
      rw [if_pos hc, if_pos hc, hs]
      by_cases ht : (s.drop i).take sub.length = sub
      · refine ⟨true, k + 1, ?_, ?_, ?_⟩
        · simp only [ht, if_true]
        · simp only [ht, if_true]
        · omega
      · simp only [ht, if_false]
        obtain ⟨b, j, hb, hl, hj⟩ := ih (i + 1) (k + 1) (by omega) (by omega)
        refine ⟨b, j, ?_, ?_, ?_⟩
        · rw [← hb]; congr 1
        · rw [← hl]; congr 1
        · omega
    · rw [if_neg hc, if_neg hc]
      exact ⟨false, k, rfl, rfl, by omega⟩

/-- The function `handlePanic` is its log statement followed by the rest of its body. -/
theorem handlePanic_log_then_respond (r : Request) (p : Payload) :
    handlePanic r p
      = (logPrintf ("Panic recovered: " ++ p.fmtV)).andThen fun _ => respondToPanic p :=
  rfl

/-- The call `http.Error` writes nothing to the log. -/
theorem httpError_log (msg : String) (code : Int) (σ : World) :
    (httpError msg code σ).2.log = σ.log := by
  cases hw : σ.resp.wroteHeader <;> cases he : σ.resp.writeErr <;>
    by_cases hc : (code < 100 ∨ code > 999) <;>
    cases hb : bodyAllowedForStatus σ.resp.code <;>
    cases hb2 : bodyAllowedForStatus code <;>
    simp [httpError, WriteHeader, Write, hw, he, hc, hb, hb2]

/-- Whatever `handlePanic` does afterwards (return, panic in `WriteHeader`, fall back after a
failed encoding), the log holds the entry for the payload, right after what it held. -/
theorem handlePanic_log (r : Request) (p : Payload) (σ : World) :
    ∃ more, (handlePanic r p σ).2.log = σ.log ++ ("Panic recovered: " ++ p.fmtV) :: more := by
  cases hw : σ.resp.wroteHeader <;> cases he : σ.resp.writeErr <;>
    by_cases hc : ((panicStatusMessage p).1 < 100 ∨ (panicStatusMessage p).1 > 999) <;>
    cases hb : bodyAllowedForStatus σ.resp.code <;>
    cases hb2 : bodyAllowedForStatus (panicStatusMessage p).1 <;>
    simp [handlePanic, logPrintf, setHeader, httpError, WriteHeader, Write, hw, he, hc, hb,
      hb2]

/-- First match gives the default fault or the fault of an entry of the table. -/
theorem firstMatch_mem (t : String) (tbl : List (String × Int × String)) :
    firstMatch t tbl = ⟨500, "Internal server error"⟩ ∨
      ∃ x ∈ tbl, firstMatch t tbl = ⟨x.2.1, x.2.2⟩ := by
  induction tbl with
  | nil => exact Or.inl rfl
  | cons x tbl ih =>
    obtain ⟨kw, status, msg⟩ := x
    by_cases h : occursIn kw t
    · right
      exact ⟨(kw, status, msg), List.mem_cons_self _ _, by simp only [firstMatch, h, if_true]⟩
    · simp only [firstMatch, h, if_false]
      rcases ih with h0 | ⟨y, hy, hy2⟩
      · exact Or.inl h0
      · exact Or.inr ⟨y, List.mem_cons_of_mem _ hy, hy2⟩

/-! ## Lemmas on the JSON body -/

theorem readJsonString_nil : readJsonString [] = none := by
  rw [readJsonString.eq_def]

theorem readJsonString_cons (c : Char) (rest : List Char) :
    readJsonString (c :: rest) =
    if c.toNat = 34 then some ([], rest)
    else if c.toNat = 92 then
      match rest with
      | [] => none
      | e :: rest1 =>
        if e.toNat = 117 then
          match rest1 with
          | a :: b :: c2 :: d :: rest2 =>
            match hexValue a, hexValue b, hexValue c2, hexValue d with
            | some x, some y, some z, some w =>
              let code := 4096 * x + 256 * y + 16 * z + w
              if 55296 ≤ code ∧ code ≤ 57343 then none
              else
                match readJsonString rest2 with
                | none => none
                | some (cs, after) => some (Char.ofNat code :: cs, after)
            | _, _, _, _ => none
          | _ => none
        else
          match unescapeChar e with
          | none => none
          | some ch =>
            match readJsonString rest1 with
            | none => none
            | some (cs, after) => some (ch :: cs, after)
    else if c.toNat < 32 then none
    else
      match readJsonString rest with
      | none => none
      | some (cs, after) => some (c :: cs, after) := by
  rw [readJsonString.eq_def]

theorem readJsonString_cons_plain (c : Char) (tail : List Char)
    (h1 : c.toNat ≠ 34) (h2 : c.toNat ≠ 92) (h3 : ¬ c.toNat < 32) :
    readJsonString (c :: tail)
      = (readJsonString tail).map (fun r => (c :: r.1, r.2)) := by
  rw [readJsonString_cons]
  simp only [h1, h2, h3, if_false]
  cases readJsonString tail with
  | none => rfl
  | some r => rfl

theorem hexValue_hexDigit (j : Nat) (hj : j < 16) : hexValue (hexDigit j) = some j := by
  interval_cases j <;> decide

theorem readJsonString_u00 (k : Nat) (hk : k < 64) (tail : List Char) :
    readJsonString (("\\u00" ++ String.singleton (hexDigit (k / 16)) ++
        String.singleton (hexDigit (k % 16))).data ++ tail)
      = (readJsonString tail).map (fun r => (Char.ofNat k :: r.1, r.2)) := by
  have hd : ("\\u00" ++ String.singleton (hexDigit (k / 16)) ++
        String.singleton (hexDigit (k % 16))).data
      = [Char.ofNat 92, Char.ofNat 117, Char.ofNat 48, Char.ofNat 48,
          hexDigit (k / 16), hexDigit (k % 16)] := by
    simp only [String.data_append, String.singleton]
    rfl
  have h0 : hexValue (Char.ofNat 48) = some 0 := by decide
  have h1 := hexValue_hexDigit (k / 16) (by omega)
  have h2 := hexValue_hexDigit (k % 16) (by omega)
  have e92 : (Char.ofNat 92).toNat = 92 := by decide
  have e117 : (Char.ofNat 117).toNat = 117 := by decide
  have hcode : 4096 * 0 + 256 * 0 + 16 * (k / 16) + k % 16 = k := by omega
  rw [hd]
  simp only [List.cons_append, List.nil_append]
  rw [readJsonString_cons]
  simp only [e92, e117, h0, h1, h2, hcode, if_true]
  have hs : ¬ (55296 ≤ k ∧ k ≤ 57343) := by omega
  simp only [hs, if_false]
  cases readJsonString tail with
  | none => simp
  | some r => simp

theorem readJsonString_escape (c : Char) (tail : List Char) :
    readJsonString ((jsonEscapeChar c).data ++ tail)
      = (readJsonString tail).map (fun r => (c :: r.1, r.2)) := by
  have key : ∀ (k : Nat) (esc : String), c.toNat = k →
      (readJsonString (esc.data ++ tail)
        = (readJsonString tail).map (fun r => (Char.ofNat k :: r.1, r.2))) →
      readJsonString (esc.data ++ tail)
        = (readJsonString tail).map (fun r => (c :: r.1, r.2)) := by
    intro k esc hk h
    rw [h, ← hk, Char.ofNat_toNat]
  unfold jsonEscapeChar
  simp only []
  split
  · rename_i h
    apply key 34 _ h
    cases hr : readJsonString tail <;> simp [readJsonString_cons, unescapeChar, hr]
  split
  · rename_i h
    apply key 92 _ h
    cases hr : readJsonString tail <;> simp [readJsonString_cons, unescapeChar, hr]
  split
  · rename_i h
    apply key 8 _ h
    cases hr : readJsonString tail <;> simp [readJsonString_cons, unescapeChar, hr]
  split
  · rename_i h
    apply key 12 _ h
    cases hr : readJsonString tail <;> simp [readJsonString_cons, unescapeChar, hr]
  split
  · rename_i h
    apply key 10 _ h
    cases hr : readJsonString tail <;> simp [readJsonString_cons, unescapeChar, hr]
  split
  · rename_i h
    apply key 13 _ h
    cases hr : readJsonString tail <;> simp [readJsonString_cons, unescapeChar, hr]
  split
  · rename_i h
    apply key 9 _ h
    cases hr : readJsonString tail <;> simp [readJsonString_cons, unescapeChar, hr]
  split
  · rename_i h
    apply key c.toNat _ rfl
    exact readJsonString_u00 c.toNat (by omega) tail
  split
  · rename_i h
    apply key 8232 _ h
    cases hr : readJsonString tail <;>
      simp [readJsonString_cons, unescapeChar, hexValue, hr]
  split
  · rename_i h
    apply key 8233 _ h
    cases hr : readJsonString tail <;>
      simp [readJsonString_cons, unescapeChar, hexValue, hr]
  · rename_i h1 h2 _ _ _ _ _ h8 _ _
    have h3 : ¬ c.toNat < 32 := fun h => h8 (Or.inl h)
    exact readJsonString_cons_plain c tail h1 h2 h3


theorem join_data_aux (L : List String) : ∀ acc : String,
    (L.foldl (fun r s => r ++ s) acc).data = acc.data ++ (L.map String.data).flatten := by
  induction L with
  | nil => intro acc; simp
  | cons x L ih => intro acc; simp [ih, String.data_append, List.append_assoc]

theorem join_escape_data (l : List Char) :
    (String.join (l.map jsonEscapeChar)).data
      = (l.map (fun c => (jsonEscapeChar c).data)).flatten := by
  unfold String.join
  rw [join_data_aux]
  simp [List.map_map, Function.comp_def]

theorem readJsonString_flatten (l : List Char) (rest : List Char) :
    readJsonString ((l.map (fun c => (jsonEscapeChar c).data)).flatten
        ++ Char.ofNat 34 :: rest)
      = some (l, rest) := by
  induction l with
  | nil =>
    simp only [List.map_nil, List.flatten_nil, List.nil_append]
    rw [readJsonString_cons]
    simp
  | cons c l ih =>
    simp only [List.map_cons, List.flatten_cons, List.append_assoc]
    rw [readJsonString_escape, ih]
    rfl

/-- Reading back the JSON string `encoding/json` writes gives the string. -/
theorem readJsonString_jsonString (l : List Char) (rest : List Char) :
    readJsonString ((String.join (l.map jsonEscapeChar)).data ++ Char.ofNat 34 :: rest)
      = some (l, rest) := by
  rw [join_escape_data, readJsonString_flatten]

theorem digitChar_isDigit (k : Nat) (hk : k < 10) :
    isDigit (Nat.digitChar k) = true ∧ (Nat.digitChar k).toNat - 48 = k ∧
      (k ≠ 0 → Nat.digitChar k ≠ Char.ofNat 48) := by
  interval_cases k <;> decide

theorem toDigitsCore_spec : ∀ (fuel n : Nat) (ds : List Char), n < fuel →
    (∀ c ∈ ds, isDigit c = true) →
    (∀ c ∈ Nat.toDigitsCore 10 fuel n ds, isDigit c = true) ∧
    (Nat.toDigitsCore 10 fuel n ds).foldl (fun acc c => acc * 10 + (c.toNat - 48)) 0
      = ds.foldl (fun acc c => acc * 10 + (c.toNat - 48)) n ∧
    (0 < n → ∃ d tl, Nat.toDigitsCore 10 fuel n ds = d :: tl ∧ d ≠ Char.ofNat 48) := by
  intro fuel
  induction fuel with
  | zero => intro n ds h; omega
  | succ fuel ih =>
    intro n ds hn hds
    have hd := digitChar_isDigit (n % 10) (Nat.mod_lt _ (by decide))
    have hds' : ∀ c ∈ Nat.digitChar (n % 10) :: ds, isDigit c = true := by
      intro c hc
      rcases List.mem_cons.mp hc with h | h
      · rw [h]; exact hd.1
      · exact hds c h
    unfold Nat.toDigitsCore
    simp only []
    by_cases h0 : n / 10 = 0
    · rw [if_pos h0]
      have hlt : n < 10 := by omega
      have hmod : n % 10 = n := Nat.mod_eq_of_lt hlt
      refine ⟨hds', ?_, ?_⟩
      · simp only [List.foldl_cons]
        rw [hd.2.1, hmod, Nat.zero_mul, Nat.zero_add]
      · intro hpos
        exact ⟨_, _, rfl, by rw [hmod]; exact (digitChar_isDigit n hlt).2.2 (by omega)⟩
    · rw [if_neg h0]
      obtain ⟨i1, i2, i3⟩ := ih (n / 10) (Nat.digitChar (n % 10) :: ds) (by omega) hds'
      refine ⟨i1, ?_, ?_⟩
      · rw [i2]
        simp only [List.foldl_cons, hd.2.1]
        have : n / 10 * 10 + n % 10 = n := by omega
        rw [this]
      · intro _
        exact i3 (by omega)


theorem toDigits_spec (n : Nat) :
    (∀ c ∈ Nat.toDigits 10 n, isDigit c = true) ∧
    digitsValue (Nat.toDigits 10 n) = n ∧
    Nat.toDigits 10 n ≠ [] ∧
    ¬ (1 < (Nat.toDigits 10 n).length ∧ (Nat.toDigits 10 n).head? = some (Char.ofNat 48)) := by
  obtain ⟨h1, h2, h3⟩ := toDigitsCore_spec (n + 1) n [] (by omega) (by simp)
  have h2' : digitsValue (Nat.toDigits 10 n) = n := by
    unfold digitsValue Nat.toDigits
    rw [h2]
    rfl
  refine ⟨h1, h2', ?_, ?_⟩
  · intro hnil
    rw [hnil] at h2'
    by_cases hn : n = 0
    · subst hn
      exact absurd hnil (by decide)
    · exact hn (by simpa [digitsValue] using h2'.symm)
  · rintro ⟨hlen, hhead⟩
    by_cases hn : n = 0
    · subst hn
      exact absurd hlen (by decide)
    · obtain ⟨d, tl, hd, hne⟩ := h3 (by omega)
      unfold Nat.toDigits at hhead
      rw [hd] at hhead
      simp only [List.head?_cons, Option.some.injEq] at hhead
      exact hne hhead

/-- Reading back the decimal digits of a number gives the number, when no digit follows. -/
theorem readJsonNat_toDigits (n : Nat) (rest : List Char)
    (hrest : rest.takeWhile isDigit = []) :
    readJsonNat (Nat.toDigits 10 n ++ rest) = some (n, rest) := by
  obtain ⟨h1, h2, h3, h4⟩ := toDigits_spec n
  have ht : (Nat.toDigits 10 n ++ rest).takeWhile isDigit = Nat.toDigits 10 n := by
    rw [List.takeWhile_append_of_pos h1, hrest, List.append_nil]
  have hdr : (Nat.toDigits 10 n ++ rest).dropWhile isDigit = rest := by
    rw [List.dropWhile_append_of_pos h1]
    cases rest with
    | nil => rfl
    | cons c rest =>
      simp only [List.takeWhile_cons] at hrest
      simp only [List.dropWhile_cons]
      split at hrest
      · exact absurd hrest (by simp)
      · rename_i hc
        simp [hc]
  unfold readJsonNat
  simp only [ht, hdr, h3, h4, if_false, h2]

/-- Reading back the decimal rendering of an integer gives the integer, when no digit
follows. -/
theorem readJsonInt_toString (S : Int) (rest : List Char)
    (hrest : rest.takeWhile isDigit = []) :
    readJsonInt ((toString S).data ++ rest) = some (S, rest) := by
  cases S with
  | ofNat n =>
    have hs : (toString (Int.ofNat n)).data = Nat.toDigits 10 n := rfl
    rw [hs]
    obtain ⟨h1, _, h3, _⟩ := toDigits_spec n
    have hr := readJsonNat_toDigits n rest hrest
    cases hd : Nat.toDigits 10 n with
    | nil => exact absurd hd h3
    | cons c tl =>
      rw [hd] at hr h1
      have hc : isDigit c = true := h1 c (List.mem_cons_self _ _)
      have hne : c.toNat ≠ 45 := by
        intro h
        simp [isDigit, h] at hc
      simp only [List.cons_append] at hr ⊢
      simp only [readJsonInt, hne, if_false, hr]
      rfl
  | negSucc n =>
    have hs : (toString (Int.negSucc n)).data = Char.ofNat 45 :: Nat.toDigits 10 (n + 1) := rfl
    rw [hs]
    have hr := readJsonNat_toDigits (n + 1) rest hrest
    have h45 : (Char.ofNat 45).toNat = 45 := by decide
    simp only [List.cons_append, readJsonInt, h45, if_true, hr]
    rfl


theorem dropLiteral_append (lit s : List Char) : dropLiteral lit (lit ++ s) = some s := by
  induction lit with
  | nil => cases s <;> rfl
  | cons l lit ih => simp [dropLiteral, ih]

/-- The body `encoding/json` writes for the error object reads back, under the JSON grammar,
as the fault wire shape holding exactly the message and the status that were encoded. -/
theorem decodeErrorResponse_encode (M : String) (S : Int) :
    decodeErrorResponse (encodeErrorResponse M S) = some (M, S) := by
  have hdata : (encodeErrorResponse M S).data
      = "\x7b\"error\":\x7b\"message\":\"".data ++
          ((String.join (M.data.map jsonEscapeChar)).data ++ Char.ofNat 34 ::
            (",\"status\":".data ++ ((toString S).data ++ "\x7d\x7d\n".data))) := by
    simp only [encodeErrorResponse, jsonString, String.data_append, List.append_assoc]
    rfl
  have hrest : ("\x7d\x7d\n".data).takeWhile isDigit = [] := by decide
  have htail : dropLiteral "\x7d\x7d".data "\x7d\x7d\n".data = some [Char.ofNat 10] := by decide
  unfold decodeErrorResponse
  rw [hdata, dropLiteral_append]
  simp only []
  rw [readJsonString_jsonString]
  simp only []
  rw [dropLiteral_append]
  simp only []
  rw [readJsonInt_toString S _ hrest]
  simp only [htail]
  rfl

/-! ## Claims -/

/-- C1: with a nil error every abort primitive returns normally, for every value of its
other arguments: no panic is raised, and the response writer and the log are left as they
were. -/
theorem nil_error_is_noop (message : String) (statusCode : Int) (σ : World) :
    Must none σ = (.returned (), σ) ∧
    MustWithMessage none message σ = (.returned (), σ) ∧
    MustHTTP none statusCode message σ = (.returned (), σ) ∧
    MustHTTPWithDefault none σ = (.returned (), σ) ∧
    MustWithRecovery none σ = (.returned (), σ) ∧
    MustNotFound none σ = (.returned (), σ) ∧
    MustBadRequest none σ = (.returned (), σ) ∧
    MustUnauthorized none σ = (.returned (), σ) ∧
    MustForbidden none σ = (.returned (), σ) ∧
    MustConflict none σ = (.returned (), σ) ∧
    MustValidation none σ = (.returned (), σ) ∧
    MustInternal none σ = (.returned (), σ) ∧
    MustTimeout none σ = (.returned (), σ) ∧
    MustServiceUnavailable none σ = (.returned (), σ) ∧
    MustTooManyRequests none σ = (.returned (), σ) ∧
    MustUnprocessableEntity none σ = (.returned (), σ) :=
  ⟨rfl, rfl, rfl, rfl, rfl, rfl, rfl, rfl, rfl, rfl, rfl, rfl, rfl, rfl, rfl, rfl⟩

/-- C2: for every non-nil error, status code and message, `MustHTTP` panics, the payload is
the value `HTTPError{StatusCode: statusCode, Message: message}` (the type assertion
`.(HTTPError)` on it gives these two fields), whatever the error is, and the world is left
as it was. -/
theorem MustHTTP_panics_with_fault (e : GoError) (statusCode : Int) (message : String)
    (σ : World) :
    MustHTTP (some e) statusCode message σ
      = (.panicked (.err (.httpError ⟨statusCode, message⟩)), σ) ∧
    Payload.asHTTPError (.err (.httpError ⟨statusCode, message⟩))
      = some ⟨statusCode, message⟩ :=
  ⟨rfl, rfl⟩

/-- C3: for every non-nil error with text `t`, `MustHTTPWithDefault` panics with the fault
that first match over the ordered table gives: status and message of the first entry whose
keyword occurs in `t`, and 500 / "Internal server error" when none occurs. -/
theorem MustHTTPWithDefault_is_first_match (e : GoError) (σ : World) :
    MustHTTPWithDefault (some e) σ =
      (.panicked (.err (.httpError (firstMatch e.Error classificationTable))), σ) :=
  MustHTTPWithDefault_firstMatch e σ

/-- C6: with a nil error each parse-result primitive returns its value unchanged, without
panicking and without touching the world, for every type, value and remaining arguments. -/
theorem parse_nil_returns_value {T : Type} (v : T) (m : String) (s : Int) (σ : World) :
    MustParse v none σ = (.returned v, σ) ∧
    MustParseWithMessage v none m σ = (.returned v, σ) ∧
    MustParseHTTP v none s m σ = (.returned v, σ) ∧
    MustParseHTTPDefault v none σ = (.returned v, σ) :=
  ⟨rfl, rfl, rfl, rfl⟩

/-- C7: with a non-nil error each parse-result primitive panics with exactly the payload of
its plain counterpart for the same error and classification, whatever the value is; no value
is returned. -/
theorem parse_error_panics_as_plain {T : Type} (e : GoError) (m : String) (s : Int)
    (σ : World) :
    (∃ p, Must (some e) σ = (.panicked p, σ) ∧
      ∀ v : T, MustParse v (some e) σ = (.panicked p, σ)) ∧
    (∃ p, MustWithMessage (some e) m σ = (.panicked p, σ) ∧
      ∀ v : T, MustParseWithMessage v (some e) m σ = (.panicked p, σ)) ∧
    (∃ p, MustHTTP (some e) s m σ = (.panicked p, σ) ∧
      ∀ v : T, MustParseHTTP v (some e) s m σ = (.panicked p, σ)) ∧
    (∃ p, MustHTTPWithDefault (some e) σ = (.panicked p, σ) ∧
      ∀ v : T, MustParseHTTPDefault v (some e) σ = (.panicked p, σ)) := by
  refine ⟨⟨_, rfl, fun _ => rfl⟩, ⟨_, rfl, fun _ => rfl⟩, ⟨_, rfl, fun _ => rfl⟩, ?_⟩
  refine ⟨_, MustHTTPWithDefault_firstMatch e σ, fun v => ?_⟩
  simp only [MustParseHTTPDefault, Go.andThen, MustHTTPWithDefault_firstMatch]

/-- C8, as stated, fails: a unit raising `HTTPError{0, "dup"}` through `MustHTTP`, wrapped by
`RecoveryMiddleware` and served on a fresh recorder, gives no response with status 0 and a
JSON body: `WriteHeader(0)` panics inside `handlePanic`, the panic leaves the boundary, the
status code stays 200 and the body stays empty. -/
theorem fault_status_zero_no_response :
    RecoveryMiddleware (fun _ => MustHTTP (some (.errorString "x")) 0 "dup")
        ⟨"GET", "/", ""⟩ ⟨NewRecorder, []⟩
      = (.panicked (.str "invalid WriteHeader code 0"),
          ⟨{ NewRecorder with header := [("Content-Type", "application/json")] },
            ["Panic recovered: HTTP 0: dup"]⟩) ∧
    (RecoveryMiddleware (fun _ => MustHTTP (some (.errorString "x")) 0 "dup")
        ⟨"GET", "/", ""⟩ ⟨NewRecorder, []⟩).2.resp.code ≠ 0 ∧
    (RecoveryMiddleware (fun _ => MustHTTP (some (.errorString "x")) 0 "dup")
        ⟨"GET", "/", ""⟩ ⟨NewRecorder, []⟩).2.resp.body = "" := by
  decide

/-- C8, amended: for every status `S` from 200 to 999 other than 204 and 304 and every
message `M`, a unit that panics with `HTTPError{S, M}` before the header of the response is
written and before any body is written, on a writer whose writes succeed, wrapped by
`RecoveryMiddleware` or by `RecoveryMiddlewareFunc`, returns normally and leaves a response
of status `S`, Content-Type `application/json`, and a body that reads, under the JSON
grammar, as the object with "error" holding "message" `M` and "status" `S`, followed by a
newline. -/
theorem fault_becomes_json_response (next : Handler) (r : Request) (σ σ' : World)
    (S : Int) (M : String)
    (hlo : 200 ≤ S) (hhi : S ≤ 999) (h204 : S ≠ 204) (h304 : S ≠ 304)
    (habort : next r σ = (.panicked (.fault S M), σ'))
    (hfresh : σ'.resp.wroteHeader = false) (hbody : σ'.resp.body = "")
    (hok : σ'.resp.writeErr = none) :
    ((RecoveryMiddleware next r σ).1 = .returned () ∧
      isFaultResponse (RecoveryMiddleware next r σ).2.resp S M ∧
      decodeErrorResponse (RecoveryMiddleware next r σ).2.resp.body = some (M, S)) ∧
    ((RecoveryMiddlewareFunc next r σ).1 = .returned () ∧
      isFaultResponse (RecoveryMiddlewareFunc next r σ).2.resp S M ∧
      decodeErrorResponse (RecoveryMiddlewareFunc next r σ).2.resp.body = some (M, S)) := by
  have hp : panicStatusMessage (.fault S M) = (S, M) := rfl
  have h := handlePanic_fresh r (.fault S M) σ' hfresh hok
    (by rw [hp]; show 100 ≤ S; omega) (by rw [hp]; exact hhi)
    (by rw [hp]; exact bodyAllowed_from_200 S hlo h204 h304)
  have e1 : RecoveryMiddleware next r σ = handlePanic r (.fault S M) σ' := by
    simp only [RecoveryMiddleware, deferRecover, habort]
  have e2 : RecoveryMiddlewareFunc next r σ = handlePanic r (.fault S M) σ' := by
    simp only [RecoveryMiddlewareFunc, deferRecover, habort]
  rw [e1, e2, h, hp]
  simp only [isFaultResponse, headerGet_headerSet, hbody, String.empty_append, and_self,
    decodeErrorResponse_encode, true_and]

/-- Witness of the amended C8: the unit `MustHTTP(err, 409, "dup")` on a fresh recorder. -/
theorem fault_becomes_json_response_witness :
    ((RecoveryMiddleware (fun _ => MustHTTP (some (.errorString "x")) 409 "dup")
        ⟨"GET", "/", ""⟩ ⟨NewRecorder, []⟩).1 = .returned () ∧
      isFaultResponse
        (RecoveryMiddleware (fun _ => MustHTTP (some (.errorString "x")) 409 "dup")
          ⟨"GET", "/", ""⟩ ⟨NewRecorder, []⟩).2.resp 409 "dup" ∧
      decodeErrorResponse
        (RecoveryMiddleware (fun _ => MustHTTP (some (.errorString "x")) 409 "dup")
          ⟨"GET", "/", ""⟩ ⟨NewRecorder, []⟩).2.resp.body = some ("dup", 409)) ∧
    ((RecoveryMiddlewareFunc (fun _ => MustHTTP (some (.errorString "x")) 409 "dup")
        ⟨"GET", "/", ""⟩ ⟨NewRecorder, []⟩).1 = .returned () ∧
      isFaultResponse
        (RecoveryMiddlewareFunc (fun _ => MustHTTP (some (.errorString "x")) 409 "dup")
          ⟨"GET", "/", ""⟩ ⟨NewRecorder, []⟩).2.resp 409 "dup" ∧
      decodeErrorResponse
        (RecoveryMiddlewareFunc (fun _ => MustHTTP (some (.errorString "x")) 409 "dup")
          ⟨"GET", "/", ""⟩ ⟨NewRecorder, []⟩).2.resp.body = some ("dup", 409)) :=
  fault_becomes_json_response (fun _ => MustHTTP (some (.errorString "x")) 409 "dup")
    ⟨"GET", "/", ""⟩ ⟨NewRecorder, []⟩ ⟨NewRecorder, []⟩ 409 "dup"
    (by decide) (by decide) (by decide) (by decide) rfl rfl rfl rfl

/-- C9: for every payload that is not an `HTTPError` value, `handlePanic` settles on status
500 and on the message by the type of the payload (the text of an error, a string itself,
"Internal server error" for any other value); on a writer whose header is not yet written
and whose writes succeed it returns, with status code 500 and the JSON body for that message
appended. -/
theorem non_fault_payload_is_500 (p : Payload) (r : Request) (σ : World)
    (hp : p.asHTTPError = none)
    (hfresh : σ.resp.wroteHeader = false) (hok : σ.resp.writeErr = none) :
    panicStatusMessage p = (500, nonFaultMessage p) ∧
    (handlePanic r p σ).1 = .returned () ∧
    (handlePanic r p σ).2.resp.code = 500 ∧
    (handlePanic r p σ).2.resp.body
      = σ.resp.body ++ encodeErrorResponse (nonFaultMessage p) 500 := by
  have h1 := panicStatusMessage_nonFault p hp
  have h := handlePanic_fresh r p σ hfresh hok (by rw [h1]; show (100 : Int) ≤ 500; decide)
    (by rw [h1]; show (500 : Int) ≤ 999; decide)
    (by rw [h1]; show bodyAllowedForStatus 500 = true; decide)
  rw [h, h1]
  exact ⟨rfl, rfl, rfl, rfl⟩

/-- Witness of C9: the string payload "boom" on a fresh recorder gives status 500 and
message "boom". -/
theorem non_fault_payload_is_500_witness :
    panicStatusMessage (.str "boom") = (500, "boom") ∧
    (handlePanic ⟨"GET", "/", ""⟩ (.str "boom") ⟨NewRecorder, []⟩).1 = .returned () ∧
    (handlePanic ⟨"GET", "/", ""⟩ (.str "boom") ⟨NewRecorder, []⟩).2.resp.code = 500 ∧
    (handlePanic ⟨"GET", "/", ""⟩ (.str "boom") ⟨NewRecorder, []⟩).2.resp.body
      = "" ++ encodeErrorResponse "boom" 500 :=
  non_fault_payload_is_500 (.str "boom") ⟨"GET", "/", ""⟩ ⟨NewRecorder, []⟩ rfl rfl rfl

/-- C10: a unit that returns without panicking, wrapped by any of the four recovery
boundaries, leaves exactly the world the unwrapped unit leaves: the same status code, headers
and body, and the same log; the panic handler (the injected one included, whatever it is)
is not run. -/
theorem boundary_passes_through (next : Handler) (r : Request) (σ σ' : World)
    (panicHandler : Request → Payload → Go Unit)
    (hreturns : next r σ = (.returned (), σ')) :
    RecoveryMiddleware next r σ = (.returned (), σ') ∧
    RecoveryMiddlewareFunc next r σ = (.returned (), σ') ∧
    CustomRecoveryMiddleware panicHandler next r σ = (.returned (), σ') ∧
    SimpleRecoveryMiddleware next r σ = (.returned (), σ') := by
  simp only [RecoveryMiddleware, RecoveryMiddlewareFunc, CustomRecoveryMiddleware,
    SimpleRecoveryMiddleware, deferRecover, hreturns, and_self]

/-- Witness of C10: a unit that sets a header, writes status 201 and a body, served on a
fresh recorder. -/
theorem boundary_passes_through_witness :
    RecoveryMiddleware
        (fun _ => (setHeader "X-Id" "7").andThen fun _ => (WriteHeader 201).andThen fun _ =>
          fun σ => (.returned (), (Write "created" σ).2))
        ⟨"POST", "/users", ""⟩ ⟨NewRecorder, []⟩
      = (.returned (),
          ⟨{ header := [("X-Id", "7")], wroteHeader := true, code := 201,
             snapHeader := [("X-Id", "7")], body := "created", writeErr := none }, []⟩) :=
  (boundary_passes_through
    (fun _ => (setHeader "X-Id" "7").andThen fun _ => (WriteHeader 201).andThen fun _ =>
      fun σ => (.returned (), (Write "created" σ).2))
    ⟨"POST", "/users", ""⟩ ⟨NewRecorder, []⟩
    ⟨{ header := [("X-Id", "7")], wroteHeader := true, code := 201,
       snapHeader := [("X-Id", "7")], body := "created", writeErr := none }, []⟩
    (fun r err => handlePanic r err) (by decide)).1

/-- C11, the code at a failing input: a unit raising the fault `HTTPError{-1, "neg"}`, wrapped
by `RecoveryMiddleware` and served on a fresh recorder. `WriteHeader(-1)` panics inside
`handlePanic`, which runs in the deferred function, so the panic leaves the handler: the
boundary re-raises, and no header and no body has been written. The sibling
`SimpleRecoveryMiddleware` on the same unit returns normally with a 500 response. -/
theorem negative_status_reraises :
    RecoveryMiddleware (fun _ => MustHTTP (some (.errorString "x")) (-1) "neg")
        ⟨"GET", "/", ""⟩ ⟨NewRecorder, []⟩
      = (.panicked (.str "invalid WriteHeader code -1"),
          ⟨{ NewRecorder with header := [("Content-Type", "application/json")] },
            ["Panic recovered: HTTP -1: neg"]⟩) ∧
    (RecoveryMiddleware (fun _ => MustHTTP (some (.errorString "x")) (-1) "neg")
        ⟨"GET", "/", ""⟩ ⟨NewRecorder, []⟩).1 ≠ .returned () ∧
    (RecoveryMiddleware (fun _ => MustHTTP (some (.errorString "x")) (-1) "neg")
        ⟨"GET", "/", ""⟩ ⟨NewRecorder, []⟩).2.resp.wroteHeader = false ∧
    SimpleRecoveryMiddleware (fun _ => MustHTTP (some (.errorString "x")) (-1) "neg")
        ⟨"GET", "/", ""⟩ ⟨NewRecorder, []⟩
      = (.returned (),
          ⟨{ header := [("Content-Type", "text/plain; charset=utf-8"),
                        ("X-Content-Type-Options", "nosniff")],
             wroteHeader := true, code := 500,
             snapHeader := [("Content-Type", "text/plain; charset=utf-8"),
                            ("X-Content-Type-Options", "nosniff")],
             body := "Internal server error\n", writeErr := none },
            ["Panic recovered: HTTP -1: neg"]⟩) := by
  decide

/-- C12, the code at a failing input: a unit raising the fault `HTTPError{1000, "big"}` on a
fresh recorder. Under the single boundary the panic of `WriteHeader(1000)` inside
`handlePanic` leaves the handler, with status 200 untouched and an empty body; under the
double boundary the outer `handlePanic` is entered on that second panic and answers with
status 500 and a JSON body. The two responses differ and the outer panic handling runs. -/
theorem double_wrapping_differs :
    RecoveryMiddleware (fun _ => MustHTTP (some (.errorString "x")) 1000 "big")
        ⟨"GET", "/", ""⟩ ⟨NewRecorder, []⟩
      = (.panicked (.str "invalid WriteHeader code 1000"),
          ⟨{ NewRecorder with header := [("Content-Type", "application/json")] },
            ["Panic recovered: HTTP 1000: big"]⟩) ∧
    RecoveryMiddleware
        (RecoveryMiddleware (fun _ => MustHTTP (some (.errorString "x")) 1000 "big"))
        ⟨"GET", "/", ""⟩ ⟨NewRecorder, []⟩
      = (.returned (),
          ⟨{ header := [("Content-Type", "application/json")], wroteHeader := true,
             code := 500, snapHeader := [("Content-Type", "application/json")],
             body := encodeErrorResponse "invalid WriteHeader code 1000" 500,
             writeErr := none },
            ["Panic recovered: HTTP 1000: big",
             "Panic recovered: invalid WriteHeader code 1000"]⟩) ∧
    (RecoveryMiddleware
        (RecoveryMiddleware (fun _ => MustHTTP (some (.errorString "x")) 1000 "big"))
        ⟨"GET", "/", ""⟩ ⟨NewRecorder, []⟩).2.resp.code
      ≠ (RecoveryMiddleware (fun _ => MustHTTP (some (.errorString "x")) 1000 "big")
        ⟨"GET", "/", ""⟩ ⟨NewRecorder, []⟩).2.resp.code := by
  decide

/-- C13, as stated, fails: for the error with text "user not found", `MustHTTPWithDefault`
assigns 404 / "Resource not found", but the same error raised by `Must` or by
`MustWithRecovery` inside a unit wrapped by `RecoveryMiddleware` is answered with status 500
and the text of the error as message: the boundary infers nothing from the text. -/
theorem must_error_not_classified :
    MustHTTPWithDefault (some (.errorString "user not found")) ⟨NewRecorder, []⟩
      = (.panicked (.fault 404 "Resource not found"), ⟨NewRecorder, []⟩) ∧
    RecoveryMiddleware (fun _ => Must (some (.errorString "user not found")))
        ⟨"GET", "/", ""⟩ ⟨NewRecorder, []⟩
      = (.returned (),
          ⟨{ header := [("Content-Type", "application/json")], wroteHeader := true,
             code := 500, snapHeader := [("Content-Type", "application/json")],
             body := encodeErrorResponse "user not found" 500, writeErr := none },
            ["Panic recovered: user not found"]⟩) ∧
    RecoveryMiddleware (fun _ => MustWithRecovery (some (.errorString "user not found")))
        ⟨"GET", "/", ""⟩ ⟨NewRecorder, []⟩
      = (.returned (),
          ⟨{ header := [("Content-Type", "application/json")], wroteHeader := true,
             code := 500, snapHeader := [("Content-Type", "application/json")],
             body := encodeErrorResponse "user not found" 500, writeErr := none },
            ["Panic recovered: user not found"]⟩) ∧
    encodeErrorResponse "user not found" 500 ≠ encodeErrorResponse "Resource not found" 404
    := by
  decide

/-- C13, amended: an error that is not an `HTTPError` value, raised by `Must` or by
`MustWithRecovery` inside a unit wrapped by `RecoveryMiddleware` (nothing written before, on
a writer whose writes succeed), is not classified by its text: the response has status 500
and the text of the error itself as message, whatever keyword the text contains. -/
theorem must_error_keeps_text (e : GoError) (r : Request) (σ : World)
    (hplain : Payload.asHTTPError (.err e) = none)
    (hfresh : σ.resp.wroteHeader = false) (hbody : σ.resp.body = "")
    (hok : σ.resp.writeErr = none) :
    ((RecoveryMiddleware (fun _ => Must (some e)) r σ).1 = .returned () ∧
      isFaultResponse (RecoveryMiddleware (fun _ => Must (some e)) r σ).2.resp 500 e.Error) ∧
    ((RecoveryMiddleware (fun _ => MustWithRecovery (some e)) r σ).1 = .returned () ∧
      isFaultResponse (RecoveryMiddleware (fun _ => MustWithRecovery (some e)) r σ).2.resp
        500 e.Error) := by
  have hp : panicStatusMessage (.err e) = (500, e.Error) :=
    panicStatusMessage_nonFault (.err e) hplain
  have h := handlePanic_fresh r (.err e) σ hfresh hok
    (by rw [hp]; show (100 : Int) ≤ 500; decide) (by rw [hp]; show (500 : Int) ≤ 999; decide)
    (by rw [hp]; show bodyAllowedForStatus 500 = true; decide)
  have e1 : RecoveryMiddleware (fun _ => Must (some e)) r σ = handlePanic r (.err e) σ :=
    RecoveryMiddleware_of_panic _ r σ σ (.err e) rfl
  have e2 : RecoveryMiddleware (fun _ => MustWithRecovery (some e)) r σ
      = handlePanic r (.err e) σ :=
    RecoveryMiddleware_of_panic _ r σ σ (.err e) rfl
  rw [e1, e2, h, hp]
  simp only [isFaultResponse, headerGet_headerSet, hbody, String.empty_append, and_self]

/-- Witness of the amended C13: the error "user not found" raised by `Must` on a fresh
recorder gives status 500 and message "user not found". -/
theorem must_error_keeps_text_witness :
    ((RecoveryMiddleware (fun _ => Must (some (.errorString "user not found")))
        ⟨"GET", "/", ""⟩ ⟨NewRecorder, []⟩).1 = .returned () ∧
      isFaultResponse
        (RecoveryMiddleware (fun _ => Must (some (.errorString "user not found")))
          ⟨"GET", "/", ""⟩ ⟨NewRecorder, []⟩).2.resp 500 "user not found") ∧
    ((RecoveryMiddleware (fun _ => MustWithRecovery (some (.errorString "user not found")))
        ⟨"GET", "/", ""⟩ ⟨NewRecorder, []⟩).1 = .returned () ∧
      isFaultResponse
        (RecoveryMiddleware (fun _ => MustWithRecovery (some (.errorString "user not found")))
          ⟨"GET", "/", ""⟩ ⟨NewRecorder, []⟩).2.resp 500 "user not found") :=
  must_error_keeps_text (.errorString "user not found") ⟨"GET", "/", ""⟩ ⟨NewRecorder, []⟩
    rfl rfl rfl rfl

/-- C14: for every non-nil error, `Must` and `MustWithRecovery` both panic with the error
itself as payload, unchanged (the text of the payload is the text of the error) and with the
world untouched, and the two primitives are the same function on every input, nil
included. -/
theorem Must_panics_with_error_itself (e : GoError) (σ : World) :
    Must (some e) σ = (.panicked (.err e), σ) ∧
    MustWithRecovery (some e) σ = (.panicked (.err e), σ) ∧
    (Payload.err e).fmtV = e.Error ∧
    (∀ (err : Option GoError) (τ : World), Must err τ = MustWithRecovery err τ) :=
  ⟨rfl, rfl, rfl, fun _ _ => rfl⟩

/-- C15: for every non-nil error and every message, `MustWithMessage` panics with an error
payload whose text is the message, then ": ", then the text of the error, and which wraps
the error (`Unwrap` gives it back); for the error "test error" and the message
"Custom message" the text is "Custom message: test error". -/
theorem MustWithMessage_wraps_error (e : GoError) (message : String) (σ : World) :
    (∃ w : GoError, MustWithMessage (some e) message σ = (.panicked (.err w), σ) ∧
      w.Error = message ++ ": " ++ e.Error ∧ w.Unwrap = some e) ∧
    (MustWithMessage (some (.errorString "test error")) "Custom message" σ).1
      = .panicked (.err (.wrapError "Custom message: test error"
          (.errorString "test error"))) := by
  refine ⟨⟨_, rfl, rfl, rfl⟩, ?_⟩
  simp only [MustWithMessage]
  decide

/-- C16: for every fault `HTTPError{S, M}` the method `Error()` gives "HTTP ", then the
decimal rendering of `S` (with a minus sign when `S` is negative), then ": ", then `M`;
`HTTPError{404, "Not found"}` gives "HTTP 404: Not found". -/
theorem HTTPError_Error_format (S : Int) (M : String) :
    HTTPError.Error ⟨S, M⟩ = "HTTP " ++ toString S ++ ": " ++ M ∧
    HTTPError.Error ⟨404, "Not found"⟩ = "HTTP 404: Not found" ∧
    HTTPError.Error ⟨-7, M⟩ = "HTTP -7: " ++ M := by
  refine ⟨rfl, by decide, ?_⟩
  show "HTTP " ++ toString (-7 : Int) ++ ": " ++ M = "HTTP -7: " ++ M
  have h : "HTTP " ++ toString (-7 : Int) ++ ": " = "HTTP -7: " := by decide
  rw [h]

/-- C17, as stated, fails: the string representation of `HTTPError{404, "Not found"}` is
"HTTP 404: Not found", not "404: Not found". -/
theorem canonical_form_lacks_HTTP :
    HTTPError.Error ⟨404, "Not found"⟩ = "HTTP 404: Not found" ∧
    canonicalForm ⟨404, "Not found"⟩ = "404: Not found" ∧
    HTTPError.Error ⟨404, "Not found"⟩ ≠ canonicalForm ⟨404, "Not found"⟩ := by
  decide

/-- C17, amended: for every fault with status `S` and message `M` the string representation
is "HTTP " followed by `"<S>: <M>"`; the word "HTTP" and a space stand before the status, so
it is never the bare `"<S>: <M>"`. -/
theorem Error_is_HTTP_then_canonical (h : HTTPError) :
    h.Error = "HTTP " ++ canonicalForm h ∧ h.Error ≠ canonicalForm h := by
  have e : h.Error = "HTTP " ++ canonicalForm h := by
    simp only [HTTPError.Error, canonicalForm, String.append_assoc]
  refine ⟨e, ?_⟩
  intro hne
  have hl := congrArg String.length hne
  rw [e, String.length_append] at hl
  have h5 : "HTTP ".length = 5 := by decide
  omega

/-- C18, as stated, fails: a unit that writes status 200 and the body "partial" and then
raises the fault `HTTPError{404, "gone"}`, wrapped by `RecoveryMiddleware` on a fresh
recorder, leaves status 200, not 404, and a body that starts with "partial", not a body that
is one JSON object. -/
theorem written_response_keeps_status :
    RecoveryMiddleware
        (fun _ => (WriteHeader 200).andThen fun _ => (Fprint "partial").andThen fun _ =>
          MustHTTP (some (.errorString "x")) 404 "gone")
        ⟨"GET", "/", ""⟩ ⟨NewRecorder, []⟩
      = (.returned (),
          ⟨{ header := [("Content-Type", "application/json")], wroteHeader := true,
             code := 200, snapHeader := [],
             body := "partial" ++ encodeErrorResponse "gone" 404, writeErr := none },
            ["Panic recovered: HTTP 404: gone"]⟩) ∧
    (200 : Int) ≠ 404 ∧
    "partial" ++ encodeErrorResponse "gone" 404 ≠ encodeErrorResponse "gone" 404 := by
  decide

/-- C18, amended: for a unit wrapped by `RecoveryMiddleware` that panics, on a writer whose
writes succeed: if the unit had written nothing (header not written, empty body) and the
settled status is from 200 to 999 other than 204 and 304, the handler returns and the
response has the settled status, Content-Type `application/json` and a body that reads, under
the JSON grammar, as the one error object holding the settled message and status; if the unit
had already written the header, with a status that allows a body, the handler returns, the
status code and the header as written stay what the unit wrote, and the body is the body
already written followed by a text that reads as that error object. -/
theorem abort_response_by_prior_writes (next : Handler) (r : Request) (σ σ' : World)
    (p : Payload) (hpanic : next r σ = (.panicked p, σ'))
    (hok : σ'.resp.writeErr = none) :
    (σ'.resp.wroteHeader = false → σ'.resp.body = "" →
      200 ≤ (panicStatusMessage p).1 → (panicStatusMessage p).1 ≤ 999 →
      (panicStatusMessage p).1 ≠ 204 → (panicStatusMessage p).1 ≠ 304 →
      (RecoveryMiddleware next r σ).1 = .returned () ∧
      isFaultResponse (RecoveryMiddleware next r σ).2.resp
        (panicStatusMessage p).1 (panicStatusMessage p).2 ∧
      decodeErrorResponse (RecoveryMiddleware next r σ).2.resp.body
        = some ((panicStatusMessage p).2, (panicStatusMessage p).1)) ∧
    (σ'.resp.wroteHeader = true → bodyAllowedForStatus σ'.resp.code = true →
      (RecoveryMiddleware next r σ).1 = .returned () ∧
      (RecoveryMiddleware next r σ).2.resp.code = σ'.resp.code ∧
      (RecoveryMiddleware next r σ).2.resp.snapHeader = σ'.resp.snapHeader ∧
      ∃ json, (RecoveryMiddleware next r σ).2.resp.body = σ'.resp.body ++ json ∧
        decodeErrorResponse json
          = some ((panicStatusMessage p).2, (panicStatusMessage p).1)) := by
  rw [RecoveryMiddleware_of_panic next r σ σ' p hpanic]
  refine ⟨?_, ?_⟩
  · intro hfresh hbody hlo hhi h204 h304
    rw [handlePanic_fresh r p σ' hfresh hok (by omega) hhi
      (bodyAllowed_from_200 _ hlo h204 h304)]
    simp only [isFaultResponse, headerGet_headerSet, hbody, String.empty_append, and_self,
      decodeErrorResponse_encode, true_and]
  · intro hw hallowed
    rw [handlePanic_written r p σ' hw hok hallowed]
    exact ⟨rfl, rfl, rfl, _, rfl, decodeErrorResponse_encode _ _⟩

/-- Witness of the amended C18: a unit that has written status 201 and the body "partial"
before it panics with the string "boom": the status stays 201 and a JSON error object for
"boom" and 500 follows "partial". -/
theorem abort_response_by_prior_writes_witness :
    (RecoveryMiddleware
        (fun _ => (WriteHeader 201).andThen fun _ => (Fprint "partial").andThen fun _ =>
          fun σ => (.panicked (.str "boom"), σ))
        ⟨"GET", "/", ""⟩ ⟨NewRecorder, []⟩).2.resp.code = 201 ∧
    ∃ json, (RecoveryMiddleware
        (fun _ => (WriteHeader 201).andThen fun _ => (Fprint "partial").andThen fun _ =>
          fun σ => (.panicked (.str "boom"), σ))
        ⟨"GET", "/", ""⟩ ⟨NewRecorder, []⟩).2.resp.body = "partial" ++ json ∧
      decodeErrorResponse json = some ("boom", 500) :=
  have h := abort_response_by_prior_writes
    (fun _ => (WriteHeader 201).andThen fun _ => (Fprint "partial").andThen fun _ =>
      fun σ => (.panicked (.str "boom"), σ))
    ⟨"GET", "/", ""⟩ ⟨NewRecorder, []⟩
    ⟨{ NewRecorder with wroteHeader := true, code := 201, body := "partial" }, []⟩
    (.str "boom") (by decide) rfl
  ⟨(h.2 rfl (by decide)).2.1, (h.2 rfl (by decide)).2.2.2⟩

/-- C19: for all byte strings `s` and `substr`, `contains(s, substr)` returns, and returns
true exactly when `substr` occurs in `s` as a contiguous run of equal bytes (`s` is some
bytes, then `substr`, then some bytes), so also for the empty `substr` and for `substr = s`;
the comparison is by bytes, hence case-sensitive: neither "User Not Found" nor "found"
contains any keyword of the classification table, and both are classified 500. -/
theorem contains_iff_occurs (s substr : List UInt8) :
    (contains s substr = some true ↔ ∃ pre post, s = pre ++ substr ++ post) ∧
    (contains s substr = some false ↔ ¬ ∃ pre post, s = pre ++ substr ++ post) ∧
    contains s [] = some true ∧
    contains s s = some true ∧
    classificationTable.map (fun entry => contains (utf8 "User Not Found") (utf8 entry.1))
      = List.replicate 7 (some false) ∧
    classificationTable.map (fun entry => contains (utf8 "found") (utf8 entry.1))
      = List.replicate 7 (some false) ∧
    firstMatch "User Not Found" classificationTable = ⟨500, "Internal server error"⟩ ∧
    firstMatch "found" classificationTable = ⟨500, "Internal server error"⟩ := by
  have hocc : substr <:+: s ↔ ∃ pre post, s = pre ++ substr ++ post := by
    constructor
    · rintro ⟨pre, post, h⟩; exact ⟨pre, post, h.symm⟩
    · rintro ⟨pre, post, h⟩; exact ⟨pre, post, h.symm⟩
  refine ⟨?_, ?_, ?_, ?_, by decide, by decide, by decide, by decide⟩
  · rw [contains_eq, ← hocc]
    simp
  · rw [contains_eq, ← hocc]
    simp
  · rw [contains_eq]
    simp [List.nil_infix]
  · rw [contains_eq]
    simp [List.infix_refl]

/-- C20, the code at a failing input: `handlePanic` on the fault `HTTPError{404, "missing"}`
and a writer whose `Write` fails. The status 404 is written first, the encoder fails, and the
fallback `http.Error(w, "Internal server error", 500)` comes too late: its `WriteHeader(500)`
is ignored. The status code stays 404, the header as written keeps Content-Type
`application/json`, and the body does not hold "Internal server error". -/
theorem encode_failure_keeps_fault_status :
    handlePanic ⟨"GET", "/", ""⟩ (.fault 404 "missing")
        ⟨{ NewRecorder with writeErr := some "write: broken pipe" }, []⟩
      = (.returned (),
          ⟨{ header := [("Content-Type", "text/plain; charset=utf-8"),
                        ("X-Content-Type-Options", "nosniff")],
             wroteHeader := true, code := 404,
             snapHeader := [("Content-Type", "application/json")],
             body := "", writeErr := some "write: broken pipe" },
            ["Panic recovered: HTTP 404: missing",
             "Failed to encode error response: write: broken pipe"]⟩) ∧
    (handlePanic ⟨"GET", "/", ""⟩ (.fault 404 "missing")
        ⟨{ NewRecorder with writeErr := some "write: broken pipe" }, []⟩).2.resp.code ≠ 500 := by
  decide

/-- C21, as stated, fails: the customizable boundary writes no log entry. With an injected
handler that answers through `http.Error` and logs nothing, a unit raising a fault is
intercepted and answered, and the log stays empty. -/
theorem custom_boundary_writes_no_log :
    CustomRecoveryMiddleware (fun _ _ => httpError "custom failure" 500)
        (fun _ => MustHTTP (some (.errorString "x")) 404 "gone")
        ⟨"GET", "/", ""⟩ ⟨NewRecorder, []⟩
      = (.returned (),
          ⟨{ header := [("Content-Type", "text/plain; charset=utf-8"),
                        ("X-Content-Type-Options", "nosniff")],
             wroteHeader := true, code := 500,
             snapHeader := [("Content-Type", "text/plain; charset=utf-8"),
                            ("X-Content-Type-Options", "nosniff")],
             body := "custom failure\n", writeErr := none }, []⟩) ∧
    (CustomRecoveryMiddleware (fun _ _ => httpError "custom failure" 500)
        (fun _ => MustHTTP (some (.errorString "x")) 404 "gone")
        ⟨"GET", "/", ""⟩ ⟨NewRecorder, []⟩).2.log = [] := by
  decide

/-- C21, amended: when a unit panics with payload `p`, the boundaries `RecoveryMiddleware`,
`RecoveryMiddlewareFunc` and `SimpleRecoveryMiddleware` first run the log statement for `p`,
which leaves the response untouched, and only then the statements that write the response;
the entry stands in the log right after what the unit left there, whether the handler then
returns, panics in `WriteHeader` or falls back after a failed encoding. The boundary
`CustomRecoveryMiddleware` runs the injected handler and nothing else: it logs nothing
itself. -/
theorem default_boundaries_log_first (next : Handler) (r : Request) (σ σ' : World)
    (p : Payload) (panicHandler : Request → Payload → Go Unit)
    (hpanic : next r σ = (.panicked p, σ')) :
    logPrintf ("Panic recovered: " ++ p.fmtV) σ'
      = (.returned (), { resp := σ'.resp, log := σ'.log ++ ["Panic recovered: " ++ p.fmtV] }) ∧
    RecoveryMiddleware next r σ
      = ((logPrintf ("Panic recovered: " ++ p.fmtV)).andThen fun _ => respondToPanic p) σ' ∧
    RecoveryMiddlewareFunc next r σ
      = ((logPrintf ("Panic recovered: " ++ p.fmtV)).andThen fun _ => respondToPanic p) σ' ∧
    SimpleRecoveryMiddleware next r σ
      = ((logPrintf ("Panic recovered: " ++ p.fmtV)).andThen fun _ =>
          httpError "Internal server error" 500) σ' ∧
    (∃ more, (RecoveryMiddleware next r σ).2.log
      = σ'.log ++ ("Panic recovered: " ++ p.fmtV) :: more) ∧
    (∃ more, (RecoveryMiddlewareFunc next r σ).2.log
      = σ'.log ++ ("Panic recovered: " ++ p.fmtV) :: more) ∧
    (SimpleRecoveryMiddleware next r σ).2.log = σ'.log ++ ["Panic recovered: " ++ p.fmtV] ∧
    CustomRecoveryMiddleware panicHandler next r σ = panicHandler r p σ' := by
  have e1 : RecoveryMiddleware next r σ = handlePanic r p σ' :=
    RecoveryMiddleware_of_panic next r σ σ' p hpanic
  have e2 : RecoveryMiddlewareFunc next r σ = handlePanic r p σ' := by
    simp only [RecoveryMiddlewareFunc, deferRecover, hpanic]
  have e3 : SimpleRecoveryMiddleware next r σ
      = ((logPrintf ("Panic recovered: " ++ p.fmtV)).andThen fun _ =>
          httpError "Internal server error" 500) σ' := by
    simp only [SimpleRecoveryMiddleware, deferRecover, hpanic, StatusInternalServerError]
  have e4 : CustomRecoveryMiddleware panicHandler next r σ = panicHandler r p σ' := by
    simp only [CustomRecoveryMiddleware, deferRecover, hpanic]
  refine ⟨rfl, ?_, ?_, e3, ?_, ?_, ?_, e4⟩
  · rw [e1, handlePanic_log_then_respond]
  · rw [e2, handlePanic_log_then_respond]
  · rw [e1]; exact handlePanic_log r p σ'
  · rw [e2]; exact handlePanic_log r p σ'
  · rw [e3]
    simp only [Go.andThen, logPrintf]
    rw [httpError_log]

/-- Witness of the amended C21: a unit raising `HTTPError{0, "dup"}` on a fresh recorder;
`WriteHeader(0)` panics before any status or body is written, and the log entry is there. -/
theorem default_boundaries_log_first_witness :
    ∃ more, (RecoveryMiddleware (fun _ => MustHTTP (some (.errorString "x")) 0 "dup")
        ⟨"GET", "/", ""⟩ ⟨NewRecorder, []⟩).2.log
      = [] ++ ("Panic recovered: " ++ (Payload.fault 0 "dup").fmtV) :: more :=
  (default_boundaries_log_first (fun _ => MustHTTP (some (.errorString "x")) 0 "dup")
    ⟨"GET", "/", ""⟩ ⟨NewRecorder, []⟩ ⟨NewRecorder, []⟩ (.fault 0 "dup")
    (fun r err => handlePanic r err) rfl).2.2.2.2.1

/-- C22, as stated, fails in its last part: for the error with text "not found" the fault
raised by `MustHTTPWithDefault` has the message "Resource not found", and the whole text of
the error occurs in that message. -/
theorem inferred_message_repeats_text :
    MustHTTPWithDefault (some (.errorString "not found")) ⟨NewRecorder, []⟩
      = (.panicked (.fault 404 "Resource not found"), ⟨NewRecorder, []⟩) ∧
    GoError.Error (.errorString "not found") = "not found" ∧
    occursIn "not found" "Resource not found" := by
  decide

/-- C22, amended: the fault raised by `MustHTTPWithDefault` on a non-nil error depends only
on the text of the error (errors of equal text raise equal faults), it is the fault one of
the helpers `MustNotFound`, `MustUnauthorized`, `MustForbidden`, `MustBadRequest`,
`MustValidation`, `MustTimeout`, `MustConflict`, `MustInternal` raises, its status is one
of 400, 401, 403, 404, 408, 409, 500, and its message is one of the eight fixed messages of
these helpers. -/
theorem inferred_fault_is_helper_fault (e₁ e₂ : GoError) (σ : World)
    (htext : e₁.Error = e₂.Error) :
    MustHTTPWithDefault (some e₁) σ = MustHTTPWithDefault (some e₂) σ ∧
    (MustHTTPWithDefault (some e₁) σ = MustNotFound (some e₁) σ ∨
      MustHTTPWithDefault (some e₁) σ = MustUnauthorized (some e₁) σ ∨
      MustHTTPWithDefault (some e₁) σ = MustForbidden (some e₁) σ ∨
      MustHTTPWithDefault (some e₁) σ = MustBadRequest (some e₁) σ ∨
      MustHTTPWithDefault (some e₁) σ = MustValidation (some e₁) σ ∨
      MustHTTPWithDefault (some e₁) σ = MustTimeout (some e₁) σ ∨
      MustHTTPWithDefault (some e₁) σ = MustConflict (some e₁) σ ∨
      MustHTTPWithDefault (some e₁) σ = MustInternal (some e₁) σ) ∧
    (∃ h : HTTPError, MustHTTPWithDefault (some e₁) σ = (.panicked (.err (.httpError h)), σ) ∧
      h.StatusCode ∈ ([400, 401, 403, 404, 408, 409, 500] : List Int) ∧
      h.Message ∈ ["Resource not found", "Unauthorized", "Forbidden", "Bad request",
        "Validation error", "Request timeout", "Resource conflict",
        "Internal server error"]) := by
  have hfm : firstMatch e₁.Error classificationTable ∈
      ([⟨404, "Resource not found"⟩, ⟨401, "Unauthorized"⟩, ⟨403, "Forbidden"⟩,
        ⟨400, "Bad request"⟩, ⟨400, "Validation error"⟩, ⟨408, "Request timeout"⟩,
        ⟨409, "Resource conflict"⟩, ⟨500, "Internal server error"⟩] : List HTTPError) := by
    rcases firstMatch_mem e₁.Error classificationTable with h | ⟨x, hx, h⟩
    · rw [h]; simp
    · rw [h]
      simp only [classificationTable, List.mem_cons, List.mem_singleton,
        List.not_mem_nil, or_false] at hx
      rcases hx with rfl | rfl | rfl | rfl | rfl | rfl | rfl <;> simp
  refine ⟨?_, ?_, ?_⟩
  · rw [MustHTTPWithDefault_firstMatch, MustHTTPWithDefault_firstMatch, htext]
  · rw [MustHTTPWithDefault_firstMatch]
    simp only [MustNotFound, MustUnauthorized, MustForbidden, MustBadRequest, MustValidation,
      MustTimeout, MustConflict, MustInternal, MustHTTP, Payload.fault, StatusNotFound,
      StatusUnauthorized, StatusForbidden, StatusBadRequest, StatusRequestTimeout,
      StatusConflict, StatusInternalServerError]
    simp only [List.mem_cons, List.mem_singleton, List.not_mem_nil, or_false] at hfm
    rcases hfm with h | h | h | h | h | h | h | h <;> rw [h] <;> simp
  · refine ⟨firstMatch e₁.Error classificationTable, MustHTTPWithDefault_firstMatch e₁ σ, ?_⟩
    simp only [List.mem_cons, List.mem_singleton, List.not_mem_nil, or_false] at hfm
    rcases hfm with h | h | h | h | h | h | h | h <;> rw [h] <;> simp

/-- Witness of the amended C22: a plain error and a wrapping error, both with the text
"user not found". -/
theorem inferred_fault_is_helper_fault_witness :
    MustHTTPWithDefault (some (.errorString "user not found")) ⟨NewRecorder, []⟩
      = MustHTTPWithDefault (some (.wrapError "user not found" (.errorString "row 7")))
          ⟨NewRecorder, []⟩ :=
  (inferred_fault_is_helper_fault (.errorString "user not found")
    (.wrapError "user not found" (.errorString "row 7")) ⟨NewRecorder, []⟩ rfl).1

/-- C23: for all byte strings `s` and `substr`, `contains` and `containsSubstring` return a
result: no slice expression they reach is out of range (that would be `none`), and the loop
ends within its fuel. The body of the loop runs at most `len(s) - len(substr) + 1` times, not
at all when that number is not positive; when `substr` is longer than `s` both functions
return false. The empty string on either side is covered. -/
theorem contains_in_bounds_and_bounded (s substr : List UInt8) :
    (∃ b, contains s substr = some b) ∧
    (∃ b k, containsSubstringCount s substr (s.length + 2) 0 0 = some (b, k) ∧
      containsSubstring s substr = some b ∧ k ≤ s.length + 1 - substr.length) ∧
    (s.length < substr.length →
      containsSubstringCount s substr (s.length + 2) 0 0 = some (false, 0) ∧
      containsSubstring s substr = some false ∧ contains s substr = some false) ∧
    contains [] [] = some true ∧ containsSubstring [] [] = some true ∧
    contains [] substr = some (decide (substr = [])) ∧
    contains s [] = some true ∧ containsSubstring s [] = some true := by
  refine ⟨⟨_, contains_eq s substr⟩, ?_, ?_, by decide, by decide, ?_, ?_, ?_⟩
  · obtain ⟨b, k, hc, hl, hk⟩ :=
      containsSubstringCount_spec s substr (s.length + 2) 0 0 (by omega) (by omega)
    exact ⟨b, k, hc, hl, by omega⟩
  · intro hlong
    have hnot : ¬ substr <:+: s := fun h => absurd h.length_le (by omega)
    refine ⟨?_, ?_, ?_⟩
    · show containsSubstringCount s substr ((s.length + 1) + 1) 0 0 = some (false, 0)
      unfold containsSubstringCount
      rw [if_neg (by omega)]
    · rw [containsSubstring_eq, decide_eq_false hnot]
    · rw [contains_eq, decide_eq_false hnot]
  · rw [contains_eq]
    congr 1
    apply decide_eq_decide.mpr
    constructor
    · intro h; exact List.eq_nil_of_infix_nil h
    · intro h; subst h; exact List.infix_refl _
  · rw [contains_eq]
    simp [List.nil_infix]
  · rw [containsSubstring_eq]
    simp [List.nil_infix]

/-- Witness of C23: `substr` "abc" is longer than `s` "ab"; the loop body never runs and
the answer is false. -/
theorem contains_in_bounds_and_bounded_witness :
    containsSubstringCount (utf8 "ab") (utf8 "abc") ((utf8 "ab").length + 2) 0 0
      = some (false, 0) ∧
    containsSubstring (utf8 "ab") (utf8 "abc") = some false ∧
    contains (utf8 "ab") (utf8 "abc") = some false :=
  (contains_in_bounds_and_bounded (utf8 "ab") (utf8 "abc")).2.2.1 (by decide)

end MustGo
